import Mathlib

/-!
Shallow embedding of the V4SA IKBD (keyboard controller) emulation from
src/bios/v4sa_ikbd.c, together with proofs about the protocol engine:
the command framer, the command handlers, the per-tick auto-report
generator and the custom-6301-program emulation layer.

The whole mutable C state (static globals of v4sa_ikbd.c plus the
external volatile input registers the engine reads and writes) is packed
into one `Engine` structure; every C function becomes a Lean function
`Engine → Engine`.  Bytes sent to the ACIA (`acia_ikbd_rx`) are appended
to the `out` field.  C `int` fields are modelled as `Int`, unsigned
fields as `Nat` (reduced modulo 2^32 / 2^8 where the C types wrap).
-/

namespace V4SA

/-- AUTOMODE_OFF from v4sa_ikbd.h. -/
def AUTOMODE_OFF : Nat := 0
/-- AUTOMODE_MOUSEREL from v4sa_ikbd.h. -/
def AUTOMODE_MOUSEREL : Nat := 1
/-- AUTOMODE_MOUSEABS from v4sa_ikbd.h. -/
def AUTOMODE_MOUSEABS : Nat := 2
/-- AUTOMODE_MOUSECURSOR from v4sa_ikbd.h. -/
def AUTOMODE_MOUSECURSOR : Nat := 3
/-- AUTOMODE_JOYSTICK from v4sa_ikbd.h. -/
def AUTOMODE_JOYSTICK : Nat := 4
/-- AUTOMODE_JOYSTICK_MONITORING from v4sa_ikbd.h. -/
def AUTOMODE_JOYSTICK_MONITORING : Nat := 5

/-- BUTTON_MOUSE bit from v4sa_ikbd.h. -/
def BUTTON_MOUSE : Nat := 0x01
/-- BUTTON_JOYSTICK bit from v4sa_ikbd.h. -/
def BUTTON_JOYSTICK : Nat := 0x02

/-- ATARIJOY_BITMASK_FIRE. -/
def ATARIJOY_BITMASK_FIRE : Nat := 0x80

/-- IKBD_ROM_VERSION, the boot-complete byte. -/
def IKBD_ROM_VERSION : Nat := 0xF1

/-- ABS_PREVBUTTONS, initial value of PrevReadAbsMouseButtons. -/
def ABS_PREVBUTTONS : Nat := 0x0A

/-- CRC32_POLY from v4sa_ikbd.c. -/
def CRC32_POLY : Nat := 0x04C11DB7

/-- ABS_MOUSE struct from v4sa_ikbd.h. -/
structure ABS_MOUSE where
  X : Int
  Y : Int
  MaxX : Int
  MaxY : Int
  PrevReadAbsMouseButtons : Nat
deriving DecidableEq

/-- MOUSE struct from v4sa_ikbd.h (the unused dx/dy fields are omitted;
v4sa_ikbd.c never reads or writes them). -/
structure MOUSE where
  DeltaX : Int
  DeltaY : Int
  XScale : Int
  YScale : Int
  XThreshold : Int
  YThreshold : Int
  KeyCodeDeltaX : Nat
  KeyCodeDeltaY : Nat
  YAxis : Int
  Action : Nat
deriving DecidableEq

/-- JOY struct from v4sa_ikbd.h, with the two-element arrays split into
lane-0 and lane-1 fields. -/
structure JOY where
  JoyData0 : Nat
  JoyData1 : Nat
  PrevJoyData0 : Nat
  PrevJoyData1 : Nat
deriving DecidableEq

/-- KEYBOARD_PROCESSOR struct from v4sa_ikbd.h. -/
structure KEYBOARD_PROCESSOR where
  Abs : ABS_MOUSE
  Mouse : MOUSE
  Joy : JOY
  MouseMode : Nat
  JoystickMode : Nat
deriving DecidableEq

/-- KEYBOARD struct from v4sa_ikbd.h.  The C pair of an 8-byte array and
a fill count `nBytesInInputBuffer` is modelled as a list holding exactly
the first `nBytesInInputBuffer` array entries (handlers only ever read
indices below the fill count). -/
structure KEYBOARD where
  PauseOutput : Bool
  InputBuffer : List Nat
  bLButtonDown : Nat
  bRButtonDown : Nat
  bOldLButtonDown : Nat
  bOldRButtonDown : Nat
  AutoSendCycles : Int
deriving DecidableEq

/-- One joypad_t from v4sa_ikbd.c.  The C `map` struct lays out
scancode[16] directly followed by joystick[16]; `map` here is the
corresponding 32-byte list (indices 0-15 = scancode, 16-31 = joystick),
which also reproduces the inclusive-end overlap of resolve_address at
address 0xb010 etc. -/
structure JOYPAD where
  map : List Nat
  state : Nat
  joystick : Nat
deriving DecidableEq

/-- Identifier for the custom-program read handlers registered in
CustomCodeDefinitions (C function pointers become enum tags). -/
inductive CustomR where
  | froggies
  | transbeauce2
  | dragonnels
  | chaosAD
  | asColor
  | asMono
deriving DecidableEq

/-- Identifier for the custom-program write handlers registered in
CustomCodeDefinitions. -/
inductive CustomW where
  | commonBoot
  | froggies
  | transbeauce2
  | dragonnels
  | chaosAD
  | audioSculpture
deriving DecidableEq

/-- Custom 6301 emulation state: the MemoryLoad / Execute static
variables of v4sa_ikbd.c, plus the C `static` locals of the custom
handlers (ChaosAD and AudioSculpture), which persist across resets. -/
structure CUSTOM where
  MemoryLoadNbBytesAddr : Int
  MemoryLoadNbBytesTotal : Int
  MemoryLoadNbBytesLeft : Int
  MemoryLoadCrc : Nat
  MemoryExeNbBytes : Int
  handlerRead : Option CustomR
  handlerWrite : Option CustomW
  IKBD_ExeMode : Bool
  ASmagic : Bool
  ASReadCount : Int
  ChaosFirstCall : Bool
  ChaosIgnoreNb : Int
  ChaosIndex : Int
  ChaosCount : Int
deriving DecidableEq

/-- External volatile input registers read (and partly written back) by
the engine: v4sa_mousex/y/b/w and the two joystick registers. -/
structure ENV where
  mousex : Int
  mousey : Int
  mouseb : Nat
  mousew : Int
  joyb0 : Nat
  joyb1 : Nat
deriving DecidableEq

/-- The complete engine state: every static global of v4sa_ikbd.c plus
the externals, plus the list of bytes emitted so far through
acia_ikbd_rx. -/
structure Engine where
  kp : KEYBOARD_PROCESSOR
  kbd : KEYBOARD
  Clock : List Nat
  ClockMicro : Int
  ScanCodeState : List Nat
  scancodes : List Nat
  joypad0 : JOYPAD
  joypad1 : JOYPAD
  joypad2 : JOYPAD
  joypad3 : JOYPAD
  bMouseDisabled : Bool
  bJoystickDisabled : Bool
  bDuringResetCriticalTime : Bool
  bBothMouseAndJoy : Bool
  bMouseEnabledDuringReset : Bool
  ikbd_reset_counter : Nat
  custom : CUSTOM
  mouseb_old : Nat
  env : ENV
  out : List Nat
deriving DecidableEq

/-- Modulus 2^32 of the uint32_t arithmetic. -/
def MOD32 : Nat := 4294967296

/-- Conversion of a C int to uint32_t (for arguments of acia_ikbd_rx). -/
def toU32i (v : Int) : Nat := (v % (4294967296 : Int)).toNat

/-- Cast of a C int to int8_t (two's-complement wrap). -/
def toI8 (x : Int) : Int :=
  let r := x % (256 : Int)
  if 128 ≤ r then r - 256 else r

/-- acia_ikbd_rx: the output sink; appends the uint32 value of the
argument to the emitted byte stream. -/
def acia_ikbd_rx (d : Nat) (e : Engine) : Engine :=
  { e with out := e.out ++ [d % MOD32] }

/-- acia_ikbd_rx with a signed C expression as argument. -/
def acia_ikbd_rx_i (v : Int) (e : Engine) : Engine :=
  acia_ikbd_rx (toU32i v) e

/-- IKBD_BCD_Check from v4sa_ikbd.c. -/
def IKBD_BCD_Check (val : Nat) : Bool :=
  !(val &&& 0x0f > 0x09 || val &&& 0xf0 > 0x90)

/-- One bit step of crc32_add_byte.  Note the C test
`(c & 0x80) ^ (crc & 0x80000000)` is a nonzero test on integers of
different widths, hence true when EITHER bit is set. -/
def crc32_bit (crc : Nat) (bit7 : Bool) : Nat :=
  if bit7 || (crc &&& 0x80000000 ≠ 0) then
    ((crc * 2) ^^^ CRC32_POLY) % MOD32
  else
    (crc * 2) % MOD32

/-- The 8-iteration bit loop of crc32_add_byte; `c` is the uint8_t local
that is shifted left each round. -/
def crc32_loop : Nat → Nat → Nat → Nat
  | 0, crc, _ => crc
  | n + 1, crc, c => crc32_loop n (crc32_bit crc (c &&& 0x80 ≠ 0)) ((c * 2) % 256)

/-- crc32_add_byte from v4sa_ikbd.c. -/
def crc32_add_byte (crc : Nat) (c : Nat) : Nat :=
  crc32_loop 8 crc (c % 256)

/-- crc32_reset value. -/
def crc32_init : Nat := 0xffffffff

/-- Targets of the mem_map table: index of the joypad (map area) or the
global v4sa_scancodes table. -/
inductive MemTarget where
  | pad0
  | pad1
  | pad2
  | pad3
  | scantab
deriving DecidableEq

/-- mem_map from v4sa_ikbd.c: (start, end, target, offset into the
target's byte area).  The second entry of each joypad pair points at
map.joystick, i.e. offset 16 of the contiguous 32-byte map. -/
def mem_map : List (Int × Int × MemTarget × Nat) :=
  [ (0xb000, 0xb010, MemTarget.pad0, 0)
  , (0xb010, 0xb020, MemTarget.pad0, 16)
  , (0xb100, 0xb110, MemTarget.pad1, 0)
  , (0xb110, 0xb120, MemTarget.pad1, 16)
  , (0xb200, 0xb210, MemTarget.pad2, 0)
  , (0xb210, 0xb220, MemTarget.pad2, 16)
  , (0xb300, 0xb310, MemTarget.pad3, 0)
  , (0xb310, 0xb320, MemTarget.pad3, 16)
  , (0xa000, 0xa080, MemTarget.scantab, 0) ]

/-- resolve_address from v4sa_ikbd.c: first mem_map entry whose
inclusive [start, end] range contains the address; returns the target
table and the byte index inside it. -/
def resolve_address (addr : Int) : Option (MemTarget × Nat) :=
  match mem_map.find? (fun r => decide (r.1 ≤ addr) && decide (addr ≤ r.2.1)) with
  | some r => some (r.2.2.1, r.2.2.2 + (addr - r.1).toNat)
  | none => none

/-- Byte read through resolve_address (unmapped or past the modelled
tables reads as zero; the C behaviour one byte past a table depends on
struct layout and is not exercised by any command). -/
def mem_read (addr : Int) (e : Engine) : Nat :=
  match resolve_address addr with
  | some (MemTarget.pad0, i) => e.joypad0.map.getD i 0
  | some (MemTarget.pad1, i) => e.joypad1.map.getD i 0
  | some (MemTarget.pad2, i) => e.joypad2.map.getD i 0
  | some (MemTarget.pad3, i) => e.joypad3.map.getD i 0
  | some (MemTarget.scantab, i) => e.scancodes.getD i 0
  | none => 0

/-- Byte write through resolve_address (writes to unmapped addresses are
discarded, as are writes past the modelled tables). -/
def mem_write (addr : Int) (v : Nat) (e : Engine) : Engine :=
  match resolve_address addr with
  | some (MemTarget.pad0, i) => { e with joypad0 := { e.joypad0 with map := e.joypad0.map.set i v } }
  | some (MemTarget.pad1, i) => { e with joypad1 := { e.joypad1 with map := e.joypad1.map.set i v } }
  | some (MemTarget.pad2, i) => { e with joypad2 := { e.joypad2 with map := e.joypad2.map.set i v } }
  | some (MemTarget.pad3, i) => { e with joypad3 := { e.joypad3 with map := e.joypad3.map.set i v } }
  | some (MemTarget.scantab, i) => { e with scancodes := e.scancodes.set i v }
  | none => e

/-- Clear the bits of `m` in the Nat `x` (the C idiom `x &= ~m`). -/
def clearBits (x m : Nat) : Nat := x ^^^ (x &&& m)

/-- IKBD_ButtonBool from v4sa_ikbd.c. -/
def IKBD_ButtonBool (b : Nat) : Bool := b != 0

/-- IKBD_ButtonsEqual from v4sa_ikbd.c. -/
def IKBD_ButtonsEqual (b1 b2 : Nat) : Bool :=
  IKBD_ButtonBool b1 == IKBD_ButtonBool b2

/-- Inner j-loop of IKBD_GetJoystickData: scans the changed/state bit
masks, ORs joystick-map bits for held bits and emits scancodes for
changed bits.  16-bit inputs need at most 16 iterations; fuel 32 is
always enough. -/
def joyScanLoop : Nat → Nat → Nat → Nat → List Nat → Nat → Engine → Nat × Engine
  | 0, _, _, _, _, joy, e => (joy, e)
  | fuel + 1, j, changed, state, m, joy, e =>
    if changed = 0 ∧ state = 0 then (joy, e)
    else
      let joy := if state &&& 1 = 1 then joy ||| m.getD (16 + j) 0 else joy
      let e :=
        if changed &&& 1 = 0 then e
        else
          let scan := m.getD j 0
          if scan = 0 then e
          else acia_ikbd_rx (if state &&& 1 = 0 then scan ||| 0x80 else scan) e
      joyScanLoop fuel (j + 1) (changed / 2) (state / 2) m joy e

/-- IKBD_GetJoystickData from v4sa_ikbd.c (only joypads 0 and 1 are
scanned; their input sources are v4sa_joyb0 / v4sa_joyb1). -/
def IKBD_GetJoystickData (e : Engine) : Engine :=
  let st0 := e.env.joyb0
  let changed0 := e.joypad0.state ^^^ st0
  let m0 := e.joypad0.map
  let r0 := joyScanLoop 32 0 changed0 st0 m0 0 e
  let e := { r0.2 with joypad0 := { map := m0, state := st0, joystick := r0.1 } }
  let st1 := e.env.joyb1
  let changed1 := e.joypad1.state ^^^ st1
  let m1 := e.joypad1.map
  let r1 := joyScanLoop 32 0 changed1 st1 m1 0 e
  let e := { r1.2 with joypad1 := { map := m1, state := st1, joystick := r1.1 } }
  let jd0 :=
    if e.kp.MouseMode == AUTOMODE_OFF ||
       (e.bBothMouseAndJoy && e.kp.MouseMode == AUTOMODE_MOUSEREL) then
      e.joypad0.joystick
    else 0
  { e with kp := { e.kp with Joy := { e.kp.Joy with
      JoyData1 := e.joypad1.joystick, JoyData0 := jd0 } } }

/-- IKBD_DuplicateMouseFireButtons from v4sa_ikbd.c (the `#if 1`
variant that is compiled). -/
def IKBD_DuplicateMouseFireButtons (e : Engine) : Engine :=
  if e.kp.MouseMode = AUTOMODE_OFF then
    let e :=
      if e.kbd.bRButtonDown &&& BUTTON_MOUSE ≠ 0 then
        { e with kp := { e.kp with Joy := { e.kp.Joy with
            JoyData1 := e.kp.Joy.JoyData1 ||| ATARIJOY_BITMASK_FIRE } } }
      else e
    if e.kbd.bLButtonDown &&& BUTTON_MOUSE ≠ 0 then
      { e with kp := { e.kp with Joy := { e.kp.Joy with
          JoyData0 := e.kp.Joy.JoyData0 ||| ATARIJOY_BITMASK_FIRE } } }
    else e
  else
    let pressed := (e.kp.Joy.JoyData1 &&& ATARIJOY_BITMASK_FIRE ≠ 0) ∨
                   (e.kbd.bRButtonDown &&& BUTTON_MOUSE ≠ 0)
    if pressed then
      { e with
        kp := { e.kp with Joy := { e.kp.Joy with
          JoyData1 := e.kp.Joy.JoyData1 ||| ATARIJOY_BITMASK_FIRE } },
        kbd := { e.kbd with bRButtonDown := e.kbd.bRButtonDown ||| BUTTON_JOYSTICK } }
    else
      { e with
        kp := { e.kp with Joy := { e.kp.Joy with
          JoyData1 := clearBits e.kp.Joy.JoyData1 ATARIJOY_BITMASK_FIRE } },
        kbd := { e.kbd with bRButtonDown := clearBits e.kbd.bRButtonDown BUTTON_JOYSTICK } }

/-- Body + guard of the while loop of IKBD_SendRelMousePacket, with
explicit fuel.  Each triggering iteration removes the int8 truncation of
the residual delta from the delta and refreshes the remembered button
state. -/
def sendRelLoop : Nat → Engine → Engine
  | 0, e => e
  | fuel + 1, e =>
    let bx := toI8 e.kp.Mouse.DeltaX
    let byv := toI8 e.kp.Mouse.DeltaY
    if (bx < 0 ∧ bx ≤ -e.kp.Mouse.XThreshold) ∨
       (0 < bx ∧ e.kp.Mouse.XThreshold ≤ bx) ∨
       (byv < 0 ∧ byv ≤ -e.kp.Mouse.YThreshold) ∨
       (0 < byv ∧ e.kp.Mouse.YThreshold ≤ byv) ∨
       IKBD_ButtonsEqual e.kbd.bOldLButtonDown e.kbd.bLButtonDown = false ∨
       IKBD_ButtonsEqual e.kbd.bOldRButtonDown e.kbd.bRButtonDown = false then
      let header := 0xf8 ||| (if e.kbd.bLButtonDown ≠ 0 then 0x02 else 0) |||
                    (if e.kbd.bRButtonDown ≠ 0 then 0x01 else 0)
      let e := acia_ikbd_rx header e
      let e := acia_ikbd_rx_i bx e
      let e := acia_ikbd_rx_i (byv * e.kp.Mouse.YAxis) e
      let e := { e with kp := { e.kp with Mouse := { e.kp.Mouse with
        DeltaX := e.kp.Mouse.DeltaX - bx, DeltaY := e.kp.Mouse.DeltaY - byv } } }
      let e := { e with kbd := { e.kbd with
        bOldLButtonDown := e.kbd.bLButtonDown, bOldRButtonDown := e.kbd.bRButtonDown } }
      sendRelLoop fuel e
    else e

/-- IKBD_SendRelMousePacket from v4sa_ikbd.c.  The C while loop runs at
most |DeltaX| + |DeltaY| + 1 times (every triggering iteration either
shrinks the residual delta or, once, equalises the button flags), so the
chosen fuel never runs out. -/
def IKBD_SendRelMousePacket (e : Engine) : Engine :=
  sendRelLoop (e.kp.Mouse.DeltaX.natAbs + e.kp.Mouse.DeltaY.natAbs + 2) e

/-- IKBD_SendAutoJoysticks from v4sa_ikbd.c. -/
def IKBD_SendAutoJoysticks (e : Engine) : Engine :=
  let e :=
    if e.kp.Joy.JoyData0 ≠ e.kp.Joy.PrevJoyData0 then
      let e := acia_ikbd_rx 0xFE e
      let e := acia_ikbd_rx e.kp.Joy.JoyData0 e
      { e with kp := { e.kp with Joy := { e.kp.Joy with PrevJoyData0 := e.kp.Joy.JoyData0 } } }
    else e
  if e.kp.Joy.JoyData1 ≠ e.kp.Joy.PrevJoyData1 then
    let e := acia_ikbd_rx 0xFF e
    let e := acia_ikbd_rx e.kp.Joy.JoyData1 e
    { e with kp := { e.kp with Joy := { e.kp.Joy with PrevJoyData1 := e.kp.Joy.JoyData1 } } }
  else e

/-- IKBD_SendAutoJoysticksMonitoring from v4sa_ikbd.c. -/
def IKBD_SendAutoJoysticksMonitoring (e : Engine) : Engine :=
  let b1 := ((e.kp.Joy.JoyData0 &&& ATARIJOY_BITMASK_FIRE) / 64) |||
            ((e.kp.Joy.JoyData1 &&& ATARIJOY_BITMASK_FIRE) / 128)
  let b2 := ((e.kp.Joy.JoyData0 &&& 0x0f) * 16) ||| (e.kp.Joy.JoyData1 &&& 0x0f)
  acia_ikbd_rx b2 (acia_ikbd_rx b1 e)

/-- IKBD_Cmd_ReadAbsMousePos from v4sa_ikbd.c (also called from
IKBD_SendOnMouseAction). -/
def IKBD_Cmd_ReadAbsMousePos (e : Engine) : Engine :=
  let buttons := (if e.kbd.bRButtonDown ≠ 0 then 0x01 else 0x02) |||
                 (if e.kbd.bLButtonDown ≠ 0 then 0x04 else 0x08)
  let prev := e.kp.Abs.PrevReadAbsMouseButtons
  let e := { e with kp := { e.kp with Abs := { e.kp.Abs with PrevReadAbsMouseButtons := buttons } } }
  let send := buttons &&& ((prev &&& 0xff) ^^^ 0xff)
  let e := acia_ikbd_rx 0xf7 e
  let e := acia_ikbd_rx send e
  let e := acia_ikbd_rx (toU32i e.kp.Abs.X / 256) e
  let e := acia_ikbd_rx (toU32i e.kp.Abs.X &&& 0xff) e
  let e := acia_ikbd_rx (toU32i e.kp.Abs.Y / 256) e
  acia_ikbd_rx (toU32i e.kp.Abs.Y &&& 0xff) e

/-- Emission of the two button-as-key codes shared by the Action-bit-2
path of IKBD_SendOnMouseAction and by IKBD_SendCursorMousePacket. -/
def sendButtonKeys (e : Engine) : Engine :=
  let e :=
    if IKBD_ButtonBool e.kbd.bLButtonDown ∧ ¬ IKBD_ButtonBool e.kbd.bOldLButtonDown then
      acia_ikbd_rx 0x74 e
    else if IKBD_ButtonBool e.kbd.bOldLButtonDown ∧ ¬ IKBD_ButtonBool e.kbd.bLButtonDown then
      acia_ikbd_rx 0xf4 e
    else e
  if IKBD_ButtonBool e.kbd.bRButtonDown ∧ ¬ IKBD_ButtonBool e.kbd.bOldRButtonDown then
    acia_ikbd_rx 0x75 e
  else if IKBD_ButtonBool e.kbd.bOldRButtonDown ∧ ¬ IKBD_ButtonBool e.kbd.bRButtonDown then
    acia_ikbd_rx 0xf5 e
  else e

/-- IKBD_SendOnMouseAction from v4sa_ikbd.c. -/
def IKBD_SendOnMouseAction (e : Engine) : Engine :=
  if e.kp.Mouse.Action &&& 0x4 ≠ 0 then
    sendButtonKeys e
  else if e.kp.Mouse.Action &&& 0x3 ≠ 0 then
    let lPress := (e.kp.Mouse.Action &&& 0x1 ≠ 0) ∧
      IKBD_ButtonBool e.kbd.bLButtonDown ∧ ¬ IKBD_ButtonBool e.kbd.bOldLButtonDown
    let rPress := (e.kp.Mouse.Action &&& 0x1 ≠ 0) ∧
      IKBD_ButtonBool e.kbd.bRButtonDown ∧ ¬ IKBD_ButtonBool e.kbd.bOldRButtonDown
    let lRel := (e.kp.Mouse.Action &&& 0x2 ≠ 0) ∧
      IKBD_ButtonBool e.kbd.bOldLButtonDown ∧ ¬ IKBD_ButtonBool e.kbd.bLButtonDown
    let rRel := (e.kp.Mouse.Action &&& 0x2 ≠ 0) ∧
      IKBD_ButtonBool e.kbd.bOldRButtonDown ∧ ¬ IKBD_ButtonBool e.kbd.bRButtonDown
    let pb := e.kp.Abs.PrevReadAbsMouseButtons
    let pb := if lPress then clearBits pb 0x04 ||| 0x02 else pb
    let pb := if rPress then clearBits pb 0x01 ||| 0x08 else pb
    let pb := if lRel then clearBits pb 0x08 ||| 0x01 else pb
    let pb := if rRel then clearBits pb 0x02 ||| 0x04 else pb
    let e := { e with kp := { e.kp with Abs := { e.kp.Abs with PrevReadAbsMouseButtons := pb } } }
    if (lPress ∨ rPress ∨ lRel ∨ rRel) ∧ e.kp.MouseMode = AUTOMODE_MOUSEABS then
      IKBD_Cmd_ReadAbsMousePos e
    else e
  else e

/-- Body + guard of the bounded (10 iteration) cursor-key loop of
IKBD_SendCursorMousePacket. -/
def cursorLoop : Nat → Engine → Engine
  | 0, e => e
  | fuel + 1, e =>
    if e.kp.Mouse.DeltaX ≠ 0 ∨ e.kp.Mouse.DeltaY ≠ 0 ∨
       IKBD_ButtonsEqual e.kbd.bOldLButtonDown e.kbd.bLButtonDown = false ∨
       IKBD_ButtonsEqual e.kbd.bOldRButtonDown e.kbd.bRButtonDown = false then
      let e :=
        if e.kp.Mouse.DeltaX ≠ 0 then
          let e :=
            if e.kp.Mouse.DeltaX ≤ -(e.kp.Mouse.KeyCodeDeltaX : Int) then
              let e := acia_ikbd_rx 203 (acia_ikbd_rx 75 e)
              { e with kp := { e.kp with Mouse := { e.kp.Mouse with
                  DeltaX := e.kp.Mouse.DeltaX + (e.kp.Mouse.KeyCodeDeltaX : Int) } } }
            else e
          if (e.kp.Mouse.KeyCodeDeltaX : Int) ≤ e.kp.Mouse.DeltaX then
            let e := acia_ikbd_rx 205 (acia_ikbd_rx 77 e)
            { e with kp := { e.kp with Mouse := { e.kp.Mouse with
                DeltaX := e.kp.Mouse.DeltaX - (e.kp.Mouse.KeyCodeDeltaX : Int) } } }
          else e
        else e
      let e :=
        if e.kp.Mouse.DeltaY ≠ 0 then
          let e :=
            if e.kp.Mouse.DeltaY ≤ -(e.kp.Mouse.KeyCodeDeltaY : Int) then
              let e := acia_ikbd_rx 200 (acia_ikbd_rx 72 e)
              { e with kp := { e.kp with Mouse := { e.kp.Mouse with
                  DeltaY := e.kp.Mouse.DeltaY + (e.kp.Mouse.KeyCodeDeltaY : Int) } } }
            else e
          if (e.kp.Mouse.KeyCodeDeltaY : Int) ≤ e.kp.Mouse.DeltaY then
            let e := acia_ikbd_rx 208 (acia_ikbd_rx 80 e)
            { e with kp := { e.kp with Mouse := { e.kp.Mouse with
                DeltaY := e.kp.Mouse.DeltaY - (e.kp.Mouse.KeyCodeDeltaY : Int) } } }
          else e
        else e
      let e := sendButtonKeys e
      let e := { e with kbd := { e.kbd with
        bOldLButtonDown := e.kbd.bLButtonDown, bOldRButtonDown := e.kbd.bRButtonDown } }
      cursorLoop fuel e
    else e

/-- IKBD_SendCursorMousePacket from v4sa_ikbd.c. -/
def IKBD_SendCursorMousePacket (e : Engine) : Engine :=
  cursorLoop 10 e

/-- IKBD_UpdateInternalMousePosition from v4sa_ikbd.c: latch the live
deltas, zero the input registers, and clamp the absolute position into
[0, MaxX] x [0, MaxY]. -/
def IKBD_UpdateInternalMousePosition (e : Engine) : Engine :=
  let dx := e.env.mousex
  let dy := e.env.mousey
  let e := { e with
    kp := { e.kp with Mouse := { e.kp.Mouse with DeltaX := dx, DeltaY := dy } },
    env := { e.env with mousex := 0, mousey := 0 } }
  let x := e.kp.Abs.X +
    (if 1 < e.kp.Mouse.XScale then dx * e.kp.Mouse.XScale else dx)
  let x := if x < 0 then 0 else x
  let x := if e.kp.Abs.MaxX < x then e.kp.Abs.MaxX else x
  let y := e.kp.Abs.Y +
    (if 1 < e.kp.Mouse.YScale then dy * e.kp.Mouse.YAxis * e.kp.Mouse.YScale
     else dy * e.kp.Mouse.YAxis)
  let y := if y < 0 then 0 else y
  let y := if e.kp.Abs.MaxY < y then e.kp.Abs.MaxY else y
  { e with kp := { e.kp with Abs := { e.kp.Abs with X := x, Y := y } } }

/-- IKBD_Boot_ROM from v4sa_ikbd.c: (re)initialisation run on hardware
reset and on the 0x80 0x01 command.  Clock data is cleared only on cold
reset; the custom-execution handlers are removed only when a memory load
is pending or execute mode is on. -/
def IKBD_Boot_ROM (clearAllRAM : Bool) (e : Engine) : Engine :=
  let e :=
    if clearAllRAM then
      { e with Clock := [0, 0, 0, 0, 0, 0], ClockMicro := 0 }
    else e
  let e := { e with
    kp := { e.kp with
      MouseMode := AUTOMODE_MOUSEREL,
      JoystickMode := AUTOMODE_JOYSTICK,
      Abs := { X := 0, Y := 0, MaxX := 320, MaxY := 200,
               PrevReadAbsMouseButtons := ABS_PREVBUTTONS },
      Mouse := { DeltaX := 0, DeltaY := 0, XScale := 0, YScale := 0,
                 XThreshold := 1, YThreshold := 1,
                 KeyCodeDeltaX := 1, KeyCodeDeltaY := 1,
                 YAxis := 1, Action := 0 },
      Joy := { e.kp.Joy with PrevJoyData0 := 0, PrevJoyData1 := 0 } },
    ScanCodeState := List.replicate 128 0,
    kbd := { PauseOutput := false, InputBuffer := [],
             bLButtonDown := 0, bRButtonDown := 0,
             bOldLButtonDown := 0, bOldRButtonDown := 0,
             AutoSendCycles := 150000 },
    bMouseDisabled := false, bJoystickDisabled := false,
    ikbd_reset_counter := 40,
    bDuringResetCriticalTime := true,
    bBothMouseAndJoy := false,
    bMouseEnabledDuringReset := false }
  if e.custom.MemoryLoadNbBytesLeft ≠ 0 ∨ e.custom.IKBD_ExeMode = true then
    { e with custom := { e.custom with
        MemoryLoadNbBytesLeft := 0,
        handlerRead := none, handlerWrite := none,
        IKBD_ExeMode := false } }
  else e

/-- IKBD_Reset from v4sa_ikbd.c. -/
def IKBD_Reset (bCold : Bool) (e : Engine) : Engine :=
  IKBD_Boot_ROM bCold e

/-- IKBD_CheckPressedKey from v4sa_ikbd.c: index of the first pressed
key in ScanCodeState, or -1. -/
def IKBD_CheckPressedKey (e : Engine) : Int :=
  match e.ScanCodeState.findIdx? (fun s => s ≠ 0) with
  | some i => (i : Int)
  | none => -1

/-- IKBD_CustomCodeHandler_FroggiesMenu_Read (ignores the read). -/
def IKBD_CustomCodeHandler_FroggiesMenu_Read (e : Engine) : Engine := e

/-- IKBD_CustomCodeHandler_FroggiesMenu_Write from v4sa_ikbd.c. -/
def IKBD_CustomCodeHandler_FroggiesMenu_Write (aciabyte : Nat) (e : Engine) : Engine :=
  if aciabyte &&& 0x80 ≠ 0 then
    IKBD_Boot_ROM false e
  else
    let res80 := if e.kp.Mouse.DeltaY < 0 then 0x7a
                 else if 0 < e.kp.Mouse.DeltaY then 0x06 else 0
    let res81 := if e.kp.Mouse.DeltaX < 0 then 0x7a
                 else if 0 < e.kp.Mouse.DeltaX then 0x06 else 0
    let res82 := if e.kbd.bLButtonDown &&& BUTTON_MOUSE ≠ 0 then 0x80 else 0
    let res80 := if e.ScanCodeState.getD 0x48 0 ≠ 0 then res80 ||| 0x7a else res80
    let res80 := if e.ScanCodeState.getD 0x50 0 ≠ 0 then res80 ||| 0x06 else res80
    let res81 := if e.ScanCodeState.getD 0x4b 0 ≠ 0 then res81 ||| 0x7a else res81
    let res81 := if e.ScanCodeState.getD 0x4d 0 ≠ 0 then res81 ||| 0x06 else res81
    let res82 := if e.ScanCodeState.getD 0x70 0 ≠ 0 then res82 ||| 0x80 else res82
    let res80 := res80 ||| res82
    let res81 := res81 ||| res82
    let res83 := 0xfc
    if aciabyte = 1 then
      acia_ikbd_rx res80 e
    else if aciabyte = 4 then
      acia_ikbd_rx res80 (acia_ikbd_rx res81 (acia_ikbd_rx res82 (acia_ikbd_rx res83 e)))
    else e

/-- IKBD_CustomCodeHandler_Transbeauce2Menu_Read from v4sa_ikbd.c. -/
def IKBD_CustomCodeHandler_Transbeauce2Menu_Read (e : Engine) : Engine :=
  let res := 0
  let res := if e.ScanCodeState.getD 0x48 0 ≠ 0 then res ||| 0x01 else res
  let res := if e.ScanCodeState.getD 0x50 0 ≠ 0 then res ||| 0x02 else res
  let res := if e.ScanCodeState.getD 0x4b 0 ≠ 0 then res ||| 0x04 else res
  let res := if e.ScanCodeState.getD 0x4d 0 ≠ 0 then res ||| 0x08 else res
  let res := if e.ScanCodeState.getD 0x62 0 ≠ 0 then res ||| 0x40 else res
  let res := if e.ScanCodeState.getD 0x39 0 ≠ 0 then res ||| 0x80 else res
  let res := res ||| (e.kp.Joy.JoyData1 &&& 0x8f)
  acia_ikbd_rx res e

/-- IKBD_CustomCodeHandler_Transbeauce2Menu_Write (ignores the write). -/
def IKBD_CustomCodeHandler_Transbeauce2Menu_Write (_aciabyte : Nat) (e : Engine) : Engine := e

/-- IKBD_CustomCodeHandler_DragonnelsMenu_Read (ignores the read). -/
def IKBD_CustomCodeHandler_DragonnelsMenu_Read (e : Engine) : Engine := e

/-- IKBD_CustomCodeHandler_DragonnelsMenu_Write from v4sa_ikbd.c. -/
def IKBD_CustomCodeHandler_DragonnelsMenu_Write (_aciabyte : Nat) (e : Engine) : Engine :=
  let res := if e.kp.Mouse.DeltaY < 0 then 0xfc
             else if 0 < e.kp.Mouse.DeltaY then 0x04 else 0
  let res := if e.kbd.bLButtonDown &&& BUTTON_MOUSE ≠ 0 then 0x80 else res
  acia_ikbd_rx res e

/-- IKBD_CustomCodeHandler_ChaosAD_Read from v4sa_ikbd.c. -/
def IKBD_CustomCodeHandler_ChaosAD_Read (e : Engine) : Engine :=
  let e := if e.custom.ChaosFirstCall then acia_ikbd_rx 0xfe e else e
  { e with custom := { e.custom with ChaosFirstCall := false } }

/-- Fixed KeyBuffer of the Chaos A.D. decoder. -/
def chaosKeyBuffer : List Nat := [0xca, 0x0a, 0xbc, 0x00, 0xde, 0xde, 0xfe, 0xca]

/-- IKBD_CustomCodeHandler_ChaosAD_Write from v4sa_ikbd.c. -/
def IKBD_CustomCodeHandler_ChaosAD_Write (aciabyte : Nat) (e : Engine) : Engine :=
  if 0 < e.custom.ChaosIgnoreNb then
    { e with custom := { e.custom with ChaosIgnoreNb := e.custom.ChaosIgnoreNb - 1 } }
  else if e.custom.ChaosCount ≤ 6080 then
    let idx := e.custom.ChaosIndex.toNat
    let b := aciabyte ^^^ chaosKeyBuffer.getD idx 0
    let e := { e with custom := { e.custom with
      ChaosCount := e.custom.ChaosCount + 1,
      ChaosIndex := ((e.custom.ChaosIndex + 1).toNat &&& 0x07 : Nat) } }
    acia_ikbd_rx b e
  else if aciabyte = 0x08 then
    IKBD_Boot_ROM false e
  else e

/-- IKBD_CustomCodeHandler_AudioSculpture_Read from v4sa_ikbd.c. -/
def IKBD_CustomCodeHandler_AudioSculpture_Read (colorMode : Bool) (e : Engine) : Engine :=
  if e.custom.ASmagic then
    let rc := e.custom.ASReadCount + 1
    if rc = 2 then
      let e := IKBD_Boot_ROM false e
      { e with custom := { e.custom with ASmagic := false, ASReadCount := 0 } }
    else
      { e with custom := { e.custom with ASReadCount := rc } }
  else if (colorMode = false ∧ 0 ≤ IKBD_CheckPressedKey e) ∨
          e.ScanCodeState.getD 0x39 0 ≠ 0 then
    acia_ikbd_rx 0x39 e
  else e

/-- IKBD_CustomCodeHandler_AudioSculpture_Color_Read. -/
def IKBD_CustomCodeHandler_AudioSculpture_Color_Read (e : Engine) : Engine :=
  IKBD_CustomCodeHandler_AudioSculpture_Read true e

/-- IKBD_CustomCodeHandler_AudioSculpture_Mono_Read. -/
def IKBD_CustomCodeHandler_AudioSculpture_Mono_Read (e : Engine) : Engine :=
  IKBD_CustomCodeHandler_AudioSculpture_Read false e

/-- IKBD_CustomCodeHandler_AudioSculpture_Write from v4sa_ikbd.c: on the
magic byte 0x42, arm ASmagic and emit the two key bytes 0x4b, 0x13. -/
def IKBD_CustomCodeHandler_AudioSculpture_Write (aciabyte : Nat) (e : Engine) : Engine :=
  if aciabyte = 0x42 then
    let e := { e with custom := { e.custom with ASmagic := true } }
    acia_ikbd_rx 0x13 (acia_ikbd_rx 0x4b e)
  else e

/-- Dispatch of the read-handler function pointers. -/
def runCustomRead (h : CustomR) (e : Engine) : Engine :=
  match h with
  | CustomR.froggies => IKBD_CustomCodeHandler_FroggiesMenu_Read e
  | CustomR.transbeauce2 => IKBD_CustomCodeHandler_Transbeauce2Menu_Read e
  | CustomR.dragonnels => IKBD_CustomCodeHandler_DragonnelsMenu_Read e
  | CustomR.chaosAD => IKBD_CustomCodeHandler_ChaosAD_Read e
  | CustomR.asColor => IKBD_CustomCodeHandler_AudioSculpture_Color_Read e
  | CustomR.asMono => IKBD_CustomCodeHandler_AudioSculpture_Mono_Read e

/-- One entry of the CustomCodeDefinitions registry. -/
structure CustomCodeEntry where
  LoadMemCrc : Nat
  ExeBootHandler : CustomW
  MainProgNbBytes : Int
  MainProgCrc : Nat
  ExeMainHandler_Read : CustomR
  ExeMainHandler_Write : CustomW
deriving DecidableEq

/-- CustomCodeDefinitions from v4sa_ikbd.c: the six registered custom
6301 programs with their load-stage and main-program CRCs. -/
def CustomCodeDefinitions : List CustomCodeEntry :=
  [ { LoadMemCrc := 0x2efb11b1, ExeBootHandler := CustomW.commonBoot,
      MainProgNbBytes := 167, MainProgCrc := 0xe7110b6d,
      ExeMainHandler_Read := CustomR.froggies, ExeMainHandler_Write := CustomW.froggies }
  , { LoadMemCrc := 0xadb6b503, ExeBootHandler := CustomW.commonBoot,
      MainProgNbBytes := 165, MainProgCrc := 0x5617c33c,
      ExeMainHandler_Read := CustomR.transbeauce2, ExeMainHandler_Write := CustomW.transbeauce2 }
  , { LoadMemCrc := 0x33c23cdf, ExeBootHandler := CustomW.commonBoot,
      MainProgNbBytes := 83, MainProgCrc := 0xdf3e5a88,
      ExeMainHandler_Read := CustomR.dragonnels, ExeMainHandler_Write := CustomW.dragonnels }
  , { LoadMemCrc := 0x9ad7fcdf, ExeBootHandler := CustomW.commonBoot,
      MainProgNbBytes := 109, MainProgCrc := 0xa11d8be5,
      ExeMainHandler_Read := CustomR.chaosAD, ExeMainHandler_Write := CustomW.chaosAD }
  , { LoadMemCrc := 0xbc0c206d, ExeBootHandler := CustomW.commonBoot,
      MainProgNbBytes := 91, MainProgCrc := 0x119b26ed,
      ExeMainHandler_Read := CustomR.asColor, ExeMainHandler_Write := CustomW.audioSculpture }
  , { LoadMemCrc := 0xbc0c206d, ExeBootHandler := CustomW.commonBoot,
      MainProgNbBytes := 91, MainProgCrc := 0x63b5f4df,
      ExeMainHandler_Read := CustomR.asMono, ExeMainHandler_Write := CustomW.audioSculpture } ]

/-- IKBD_CustomCodeHandler_CommonBoot from v4sa_ikbd.c: accumulate the
main-program bytes into a second CRC + byte count and swap in the
steady-state handlers when a registry entry matches both. -/
def IKBD_CustomCodeHandler_CommonBoot (aciabyte : Nat) (e : Engine) : Engine :=
  let crc := crc32_add_byte e.custom.MemoryLoadCrc aciabyte
  let cnt := e.custom.MemoryExeNbBytes + 1
  let e := { e with custom := { e.custom with MemoryLoadCrc := crc, MemoryExeNbBytes := cnt } }
  match CustomCodeDefinitions.find?
      (fun d => decide (d.MainProgNbBytes = cnt) && decide (d.MainProgCrc = crc)) with
  | some d =>
    { e with custom := { e.custom with
        handlerRead := some d.ExeMainHandler_Read,
        handlerWrite := some d.ExeMainHandler_Write } }
  | none => e

/-- Dispatch of the write-handler function pointers. -/
def runCustomWrite (h : CustomW) (b : Nat) (e : Engine) : Engine :=
  match h with
  | CustomW.commonBoot => IKBD_CustomCodeHandler_CommonBoot b e
  | CustomW.froggies => IKBD_CustomCodeHandler_FroggiesMenu_Write b e
  | CustomW.transbeauce2 => IKBD_CustomCodeHandler_Transbeauce2Menu_Write b e
  | CustomW.dragonnels => IKBD_CustomCodeHandler_DragonnelsMenu_Write b e
  | CustomW.chaosAD => IKBD_CustomCodeHandler_ChaosAD_Write b e
  | CustomW.audioSculpture => IKBD_CustomCodeHandler_AudioSculpture_Write b e

/-- Parameter read from the command input buffer. -/
def param (e : Engine) (i : Nat) : Nat := e.kbd.InputBuffer.getD i 0

/-- IKBD_Cmd_Reset: acts only when the second buffered byte is 0x01. -/
def IKBD_Cmd_Reset (e : Engine) : Engine :=
  if param e 1 = 0x01 then IKBD_Boot_ROM false e else e

/-- IKBD_Cmd_MouseAction. -/
def IKBD_Cmd_MouseAction (e : Engine) : Engine :=
  { e with kp := { e.kp with
      Mouse := { e.kp.Mouse with Action := param e 1 },
      Abs := { e.kp.Abs with PrevReadAbsMouseButtons := ABS_PREVBUTTONS } } }

/-- IKBD_Cmd_RelMouseMode: relative reporting; remembers a mouse enable
inside the post-reset critical window. -/
def IKBD_Cmd_RelMouseMode (e : Engine) : Engine :=
  let e := { e with kp := { e.kp with MouseMode := AUTOMODE_MOUSEREL } }
  if e.bDuringResetCriticalTime then { e with bMouseEnabledDuringReset := true } else e

/-- IKBD_Cmd_AbsMouseMode: absolute reporting with inclusive maxima. -/
def IKBD_Cmd_AbsMouseMode (e : Engine) : Engine :=
  { e with kp := { e.kp with
      MouseMode := AUTOMODE_MOUSEABS,
      Abs := { e.kp.Abs with
        MaxX := ((param e 1 * 256 + param e 2 : Nat) : Int),
        MaxY := ((param e 3 * 256 + param e 4 : Nat) : Int) } } }

/-- IKBD_Cmd_MouseCursorKeycodes. -/
def IKBD_Cmd_MouseCursorKeycodes (e : Engine) : Engine :=
  { e with kp := { e.kp with
      MouseMode := AUTOMODE_MOUSECURSOR,
      Mouse := { e.kp.Mouse with
        KeyCodeDeltaX := param e 1, KeyCodeDeltaY := param e 2 } } }

/-- IKBD_Cmd_SetMouseThreshold. -/
def IKBD_Cmd_SetMouseThreshold (e : Engine) : Engine :=
  { e with kp := { e.kp with Mouse := { e.kp.Mouse with
      XThreshold := (param e 1 : Int), YThreshold := (param e 2 : Int) } } }

/-- IKBD_Cmd_SetMouseScale. -/
def IKBD_Cmd_SetMouseScale (e : Engine) : Engine :=
  { e with kp := { e.kp with Mouse := { e.kp.Mouse with
      XScale := (param e 1 : Int), YScale := (param e 2 : Int) } } }

/-- IKBD_Cmd_SetInternalMousePos: sets the absolute position without
clipping (clipping only happens on the next tick update). -/
def IKBD_Cmd_SetInternalMousePos (e : Engine) : Engine :=
  { e with kp := { e.kp with Abs := { e.kp.Abs with
      X := ((param e 2 * 256 + param e 3 : Nat) : Int),
      Y := ((param e 4 * 256 + param e 5 : Nat) : Int) } } }

/-- IKBD_Cmd_SetYAxisDown. -/
def IKBD_Cmd_SetYAxisDown (e : Engine) : Engine :=
  { e with kp := { e.kp with Mouse := { e.kp.Mouse with YAxis := -1 } } }

/-- IKBD_Cmd_SetYAxisUp. -/
def IKBD_Cmd_SetYAxisUp (e : Engine) : Engine :=
  { e with kp := { e.kp with Mouse := { e.kp.Mouse with YAxis := 1 } } }

/-- IKBD_Cmd_StartKeyboardTransfer (RESUME, 0x11). -/
def IKBD_Cmd_StartKeyboardTransfer (e : Engine) : Engine :=
  { e with kbd := { e.kbd with PauseOutput := false } }

/-- IKBD_CheckResetDisableBug from v4sa_ikbd.c: when both mouse and
joystick have been disabled inside the post-reset critical window, both
are forcibly re-enabled and the "both" flag is set. -/
def IKBD_CheckResetDisableBug (e : Engine) : Engine :=
  if e.bMouseDisabled ∧ e.bJoystickDisabled then
    if e.bDuringResetCriticalTime then
      { e with
        kp := { e.kp with MouseMode := AUTOMODE_MOUSEREL, JoystickMode := AUTOMODE_JOYSTICK },
        bBothMouseAndJoy := true }
    else e
  else e

/-- IKBD_Cmd_TurnMouseOff (0x12). -/
def IKBD_Cmd_TurnMouseOff (e : Engine) : Engine :=
  let e := { e with kp := { e.kp with MouseMode := AUTOMODE_OFF }, bMouseDisabled := true }
  IKBD_CheckResetDisableBug e

/-- IKBD_Cmd_StopKeyboardTransfer (PAUSE OUTPUT, 0x13): ignored during
the post-reset critical window. -/
def IKBD_Cmd_StopKeyboardTransfer (e : Engine) : Engine :=
  if e.bDuringResetCriticalTime then e
  else { e with kbd := { e.kbd with PauseOutput := true } }

/-- IKBD_Cmd_ReturnJoystickAuto (0x14) from v4sa_ikbd.c. -/
def IKBD_Cmd_ReturnJoystickAuto (e : Engine) : Engine :=
  let e := { e with kp := { e.kp with
      JoystickMode := AUTOMODE_JOYSTICK, MouseMode := AUTOMODE_OFF } }
  let e :=
    if e.bDuringResetCriticalTime ∧ e.bMouseEnabledDuringReset then
      { e with kp := { e.kp with MouseMode := AUTOMODE_MOUSEREL }, bBothMouseAndJoy := true }
    else if e.bDuringResetCriticalTime ∧ e.bMouseDisabled then
      { e with kp := { e.kp with MouseMode := AUTOMODE_MOUSEREL }, bBothMouseAndJoy := true }
    else e
  let e := { e with kp := { e.kp with Joy := { e.kp.Joy with
      PrevJoyData0 := 0, PrevJoyData1 := 0 } } }
  let e := IKBD_GetJoystickData e
  IKBD_SendAutoJoysticks e

/-- IKBD_Cmd_StopJoystick (0x15). -/
def IKBD_Cmd_StopJoystick (e : Engine) : Engine :=
  { e with kp := { e.kp with JoystickMode := AUTOMODE_OFF } }

/-- IKBD_Cmd_ReturnJoystick (0x16). -/
def IKBD_Cmd_ReturnJoystick (e : Engine) : Engine :=
  acia_ikbd_rx e.kp.Joy.JoyData1 (acia_ikbd_rx e.kp.Joy.JoyData0 (acia_ikbd_rx 0xFD e))

/-- IKBD_Cmd_SetJoystickMonitoring (0x17). -/
def IKBD_Cmd_SetJoystickMonitoring (e : Engine) : Engine :=
  let rate : Int := (param e 1 : Int)
  let e := { e with kp := { e.kp with
      JoystickMode := AUTOMODE_JOYSTICK_MONITORING, MouseMode := AUTOMODE_OFF } }
  let rate := if rate = 0 then 1 else rate
  { e with kbd := { e.kbd with AutoSendCycles := 8021247 * rate / 100 } }

/-- IKBD_Cmd_SetJoystickFireDuration (0x18, not implemented in C). -/
def IKBD_Cmd_SetJoystickFireDuration (e : Engine) : Engine := e

/-- IKBD_Cmd_SetCursorForJoystick (0x19, not implemented in C). -/
def IKBD_Cmd_SetCursorForJoystick (e : Engine) : Engine := e

/-- IKBD_Cmd_DisableJoysticks (0x1A). -/
def IKBD_Cmd_DisableJoysticks (e : Engine) : Engine :=
  let e := { e with kp := { e.kp with JoystickMode := AUTOMODE_OFF }, bJoystickDisabled := true }
  IKBD_CheckResetDisableBug e

/-- One step of the IKBD_Cmd_SetClock loop: buffer byte i+1 replaces
Clock[i] only when it is well-formed packed BCD. -/
def clockByte (clock : List Nat) (buf : List Nat) (i : Nat) : Nat :=
  if IKBD_BCD_Check (buf.getD (i + 1) 0) then buf.getD (i + 1) 0 else clock.getD i 0

/-- The six iterations of the IKBD_Cmd_SetClock loop (i = 1..6 in C). -/
def clockUpdate (clock : List Nat) (buf : List Nat) : List Nat :=
  [ clockByte clock buf 0, clockByte clock buf 1, clockByte clock buf 2,
    clockByte clock buf 3, clockByte clock buf 4, clockByte clock buf 5 ]

/-- IKBD_Cmd_SetClock (0x1B). -/
def IKBD_Cmd_SetClock (e : Engine) : Engine :=
  { e with Clock := clockUpdate e.Clock e.kbd.InputBuffer }

/-- IKBD_Cmd_ReadClock (0x1C): emits 0xFC then the six clock bytes
(the C for loop over i = 0..5 unrolled). -/
def IKBD_Cmd_ReadClock (e : Engine) : Engine :=
  let e := acia_ikbd_rx 0xFC e
  let e := acia_ikbd_rx (e.Clock.getD 0 0) e
  let e := acia_ikbd_rx (e.Clock.getD 1 0) e
  let e := acia_ikbd_rx (e.Clock.getD 2 0) e
  let e := acia_ikbd_rx (e.Clock.getD 3 0) e
  let e := acia_ikbd_rx (e.Clock.getD 4 0) e
  acia_ikbd_rx (e.Clock.getD 5 0) e

/-- IKBD_Cmd_LoadMemory (0x20). -/
def IKBD_Cmd_LoadMemory (e : Engine) : Engine :=
  { e with custom := { e.custom with
      MemoryLoadNbBytesAddr := ((param e 1 * 256 + param e 2 : Nat) : Int),
      MemoryLoadNbBytesTotal := ((param e 3 : Nat) : Int),
      MemoryLoadNbBytesLeft := ((param e 3 : Nat) : Int),
      MemoryLoadCrc := crc32_init } }

/-- IKBD_Cmd_ReadMemory (0x21): emits the header and six bytes read
through the memory-map resolver. -/
def IKBD_Cmd_ReadMemory (e : Engine) : Engine :=
  let e := acia_ikbd_rx 0x20 (acia_ikbd_rx 0xF6 e)
  let addr : Int := ((param e 1 * 256 + param e 2 : Nat) : Int)
  let e := acia_ikbd_rx (mem_read addr e) e
  let e := acia_ikbd_rx (mem_read (addr + 1) e) e
  let e := acia_ikbd_rx (mem_read (addr + 2) e) e
  let e := acia_ikbd_rx (mem_read (addr + 3) e) e
  let e := acia_ikbd_rx (mem_read (addr + 4) e) e
  acia_ikbd_rx (mem_read (addr + 5) e) e

/-- IKBD_Cmd_Execute (0x22): turns custom-execution mode on when a boot
write handler has been installed. -/
def IKBD_Cmd_Execute (e : Engine) : Engine :=
  if e.custom.handlerWrite.isSome then
    { e with custom := { e.custom with IKBD_ExeMode := true } }
  else e

/-- Emission of an 8-byte 0xF6 status packet given its seven payload
bytes, shared by the report-current-setting commands. -/
def sendStatusPacket (b1 b2 b3 b4 b5 b6 b7 : Nat) (e : Engine) : Engine :=
  let e := acia_ikbd_rx 0xF6 e
  let e := acia_ikbd_rx b1 e
  let e := acia_ikbd_rx b2 e
  let e := acia_ikbd_rx b3 e
  let e := acia_ikbd_rx b4 e
  let e := acia_ikbd_rx b5 e
  let e := acia_ikbd_rx b6 e
  acia_ikbd_rx b7 e

/-- IKBD_Cmd_ReportMouseAction (0x87). -/
def IKBD_Cmd_ReportMouseAction (e : Engine) : Engine :=
  sendStatusPacket 7 e.kp.Mouse.Action 0 0 0 0 0 e

/-- IKBD_Cmd_ReportMouseMode (0x88 / 0x89 / 0x8A). -/
def IKBD_Cmd_ReportMouseMode (e : Engine) : Engine :=
  if e.kp.MouseMode = AUTOMODE_MOUSEREL then
    sendStatusPacket 8 0 0 0 0 0 0 e
  else if e.kp.MouseMode = AUTOMODE_MOUSEABS then
    sendStatusPacket 9 (toU32i e.kp.Abs.MaxX / 256) (toU32i e.kp.Abs.MaxX)
      (toU32i e.kp.Abs.MaxY / 256) (toU32i e.kp.Abs.MaxY) 0 0 e
  else if e.kp.MouseMode = AUTOMODE_MOUSECURSOR then
    sendStatusPacket 10 e.kp.Mouse.KeyCodeDeltaX e.kp.Mouse.KeyCodeDeltaY 0 0 0 0 e
  else
    acia_ikbd_rx 0xF6 e

/-- IKBD_Cmd_ReportMouseThreshold (0x8B). -/
def IKBD_Cmd_ReportMouseThreshold (e : Engine) : Engine :=
  sendStatusPacket 0x0B (toU32i e.kp.Mouse.XThreshold) (toU32i e.kp.Mouse.YThreshold) 0 0 0 0 e

/-- IKBD_Cmd_ReportMouseScale (0x8C). -/
def IKBD_Cmd_ReportMouseScale (e : Engine) : Engine :=
  sendStatusPacket 0x0C (toU32i e.kp.Mouse.XScale) (toU32i e.kp.Mouse.YScale) 0 0 0 0 e

/-- IKBD_Cmd_ReportMouseVertical (0x8F / 0x90). -/
def IKBD_Cmd_ReportMouseVertical (e : Engine) : Engine :=
  sendStatusPacket (if e.kp.Mouse.YAxis = -1 then 0x0F else 0x10) 0 0 0 0 0 0 e

/-- IKBD_Cmd_ReportMouseAvailability (0x92). -/
def IKBD_Cmd_ReportMouseAvailability (e : Engine) : Engine :=
  sendStatusPacket (if e.kp.MouseMode = AUTOMODE_OFF then 0x12 else 0x00) 0 0 0 0 0 0 e

/-- IKBD_Cmd_ReportJoystickMode (0x94 / 0x95 / 0x99). -/
def IKBD_Cmd_ReportJoystickMode (e : Engine) : Engine :=
  if e.kp.JoystickMode = AUTOMODE_JOYSTICK then
    sendStatusPacket 0x14 0 0 0 0 0 0 e
  else
    sendStatusPacket 0x15 0 0 0 0 0 0 e

/-- IKBD_Cmd_ReportJoystickAvailability (0x9A). -/
def IKBD_Cmd_ReportJoystickAvailability (e : Engine) : Engine :=
  sendStatusPacket (if e.kp.JoystickMode = AUTOMODE_OFF then 0x1A else 0x00) 0 0 0 0 0 0 e

/-- One entry of the KeyboardCommands dispatch table. -/
structure KeyboardCommandEntry where
  Command : Nat
  NumParameters : Nat
  run : Engine → Engine

/-- KeyboardCommands from v4sa_ikbd.c (the 0xFF terminator of the C
array is the loop sentinel, not an entry). -/
def KeyboardCommands : List KeyboardCommandEntry :=
  [ ⟨0x80, 2, IKBD_Cmd_Reset⟩
  , ⟨0x07, 2, IKBD_Cmd_MouseAction⟩
  , ⟨0x08, 1, IKBD_Cmd_RelMouseMode⟩
  , ⟨0x09, 5, IKBD_Cmd_AbsMouseMode⟩
  , ⟨0x0A, 3, IKBD_Cmd_MouseCursorKeycodes⟩
  , ⟨0x0B, 3, IKBD_Cmd_SetMouseThreshold⟩
  , ⟨0x0C, 3, IKBD_Cmd_SetMouseScale⟩
  , ⟨0x0D, 1, IKBD_Cmd_ReadAbsMousePos⟩
  , ⟨0x0E, 6, IKBD_Cmd_SetInternalMousePos⟩
  , ⟨0x0F, 1, IKBD_Cmd_SetYAxisDown⟩
  , ⟨0x10, 1, IKBD_Cmd_SetYAxisUp⟩
  , ⟨0x11, 1, IKBD_Cmd_StartKeyboardTransfer⟩
  , ⟨0x12, 1, IKBD_Cmd_TurnMouseOff⟩
  , ⟨0x13, 1, IKBD_Cmd_StopKeyboardTransfer⟩
  , ⟨0x14, 1, IKBD_Cmd_ReturnJoystickAuto⟩
  , ⟨0x15, 1, IKBD_Cmd_StopJoystick⟩
  , ⟨0x16, 1, IKBD_Cmd_ReturnJoystick⟩
  , ⟨0x17, 2, IKBD_Cmd_SetJoystickMonitoring⟩
  , ⟨0x18, 1, IKBD_Cmd_SetJoystickFireDuration⟩
  , ⟨0x19, 7, IKBD_Cmd_SetCursorForJoystick⟩
  , ⟨0x1A, 1, IKBD_Cmd_DisableJoysticks⟩
  , ⟨0x1B, 7, IKBD_Cmd_SetClock⟩
  , ⟨0x1C, 1, IKBD_Cmd_ReadClock⟩
  , ⟨0x20, 4, IKBD_Cmd_LoadMemory⟩
  , ⟨0x21, 3, IKBD_Cmd_ReadMemory⟩
  , ⟨0x22, 3, IKBD_Cmd_Execute⟩
  , ⟨0x87, 1, IKBD_Cmd_ReportMouseAction⟩
  , ⟨0x88, 1, IKBD_Cmd_ReportMouseMode⟩
  , ⟨0x89, 1, IKBD_Cmd_ReportMouseMode⟩
  , ⟨0x8A, 1, IKBD_Cmd_ReportMouseMode⟩
  , ⟨0x8B, 1, IKBD_Cmd_ReportMouseThreshold⟩
  , ⟨0x8C, 1, IKBD_Cmd_ReportMouseScale⟩
  , ⟨0x8F, 1, IKBD_Cmd_ReportMouseVertical⟩
  , ⟨0x90, 1, IKBD_Cmd_ReportMouseVertical⟩
  , ⟨0x92, 1, IKBD_Cmd_ReportMouseAvailability⟩
  , ⟨0x94, 1, IKBD_Cmd_ReportJoystickMode⟩
  , ⟨0x95, 1, IKBD_Cmd_ReportJoystickMode⟩
  , ⟨0x99, 1, IKBD_Cmd_ReportJoystickMode⟩
  , ⟨0x9A, 1, IKBD_Cmd_ReportJoystickAvailability⟩ ]

/-- IKBD_RunKeyboardCommand from v4sa_ikbd.c: append the byte to the
8-byte input buffer (dropping it when full), then dispatch if the first
buffered byte heads a known command whose parameter count is reached;
unknown first bytes clear the buffer. -/
def IKBD_RunKeyboardCommand (aciabyte : Nat) (e : Engine) : Engine :=
  let e :=
    if e.kbd.InputBuffer.length < 8 then
      { e with kbd := { e.kbd with InputBuffer := e.kbd.InputBuffer ++ [aciabyte] } }
    else e
  match KeyboardCommands.find? (fun c => c.Command = e.kbd.InputBuffer.getD 0 0) with
  | some c =>
    if c.NumParameters = e.kbd.InputBuffer.length then
      let e := { e with kbd := { e.kbd with PauseOutput := false } }
      let e := c.run e
      { e with kbd := { e.kbd with InputBuffer := [] } }
    else e
  | none => { e with kbd := { e.kbd with InputBuffer := [] } }

/-- IKBD_LoadMemoryByte from v4sa_ikbd.c: fold the byte into the load
CRC, write it through the memory map, and on the last byte look up the
registry to install a boot write handler. -/
def IKBD_LoadMemoryByte (aciabyte : Nat) (e : Engine) : Engine :=
  let crc := crc32_add_byte e.custom.MemoryLoadCrc aciabyte
  let addr := e.custom.MemoryLoadNbBytesAddr
  let e := mem_write addr aciabyte e
  let left := e.custom.MemoryLoadNbBytesLeft - 1
  let e := { e with custom := { e.custom with
      MemoryLoadCrc := crc,
      MemoryLoadNbBytesAddr := addr + 1,
      MemoryLoadNbBytesLeft := left } }
  if left = 0 then
    match CustomCodeDefinitions.find? (fun d => d.LoadMemCrc = crc) with
    | some d =>
      { e with custom := { e.custom with
          MemoryLoadCrc := crc32_init,
          MemoryExeNbBytes := 0,
          handlerRead := none,
          handlerWrite := some d.ExeBootHandler } }
    | none =>
      { e with custom := { e.custom with handlerRead := none, handlerWrite := none } }
  else e

/-- IKBD_Process_RDR from v4sa_ikbd.c: the byte-received entry point
(`submit`).  Routes to the custom write handler in execute mode, to the
memory loader while a load is pending, and to the command dispatcher
otherwise. -/
def IKBD_Process_RDR (RDR : Nat) (e : Engine) : Engine :=
  let b := RDR % 256
  match e.custom.IKBD_ExeMode, e.custom.handlerWrite with
  | true, some w => runCustomWrite w b e
  | _, _ =>
    if e.custom.MemoryLoadNbBytesLeft = 0 then IKBD_RunKeyboardCommand b e
    else IKBD_LoadMemoryByte b e

/-- IKBD_PressSTKey from v4sa_ikbd.c: the key-event entry point
(`onKeyEvent`).  Ignored entirely in joystick-monitoring mode; otherwise
records press/release in ScanCodeState, emits the raw code and, in
execute mode, invokes the custom read handler. -/
def IKBD_PressSTKey (ScanCode : Nat) (e : Engine) : Engine :=
  if e.kp.JoystickMode = AUTOMODE_JOYSTICK_MONITORING then e
  else
    let e := { e with ScanCodeState :=
      e.ScanCodeState.set (ScanCode &&& 0x7f) (if ScanCode &&& 0x80 ≠ 0 then 0 else 1) }
    let e := acia_ikbd_rx ScanCode e
    match e.custom.IKBD_ExeMode, e.custom.handlerRead with
    | true, some r => runCustomRead r e
    | _, _ => e

/-- The eight IKBD_PressSTKey calls of one wheel-up step in
IKBD_SendAutoKeyboardCommands. -/
def wheelBurst (last : Nat) (e : Engine) : Engine :=
  let e := IKBD_PressSTKey 0xf6 e
  let e := IKBD_PressSTKey 0x05 e
  let e := IKBD_PressSTKey 0x00 e
  let e := IKBD_PressSTKey 0x00 e
  let e := IKBD_PressSTKey 0x00 e
  let e := IKBD_PressSTKey 0x00 e
  let e := IKBD_PressSTKey 0x00 e
  IKBD_PressSTKey last e

/-- The `while (v4sa_mousew > 0)` loop of the tick. -/
def wheelUpLoop : Nat → Engine → Engine
  | 0, e => e
  | fuel + 1, e =>
    if 0 < e.env.mousew then
      let e := wheelBurst 0x59 e
      wheelUpLoop fuel { e with env := { e.env with mousew := e.env.mousew - 1 } }
    else e

/-- The `while (v4sa_mousew < 0)` loop of the tick. -/
def wheelDownLoop : Nat → Engine → Engine
  | 0, e => e
  | fuel + 1, e =>
    if e.env.mousew < 0 then
      let e := wheelBurst 0x5a e
      wheelDownLoop fuel { e with env := { e.env with mousew := e.env.mousew + 1 } }
    else e

/-- Per-tick packet emission: the automatic joystick packets and the
relative / cursor-key mouse packets, followed by storing the button
state for next time (middle of IKBD_SendAutoKeyboardCommands). -/
def IKBD_AutoSendPackets (e : Engine) : Engine :=
  let e := if e.kp.JoystickMode = AUTOMODE_JOYSTICK then IKBD_SendAutoJoysticks e else e
  let e :=
    if e.kp.MouseMode = AUTOMODE_MOUSEREL then IKBD_SendRelMousePacket e
    else if e.kp.MouseMode = AUTOMODE_MOUSECURSOR then IKBD_SendCursorMousePacket e
    else e
  { e with kbd := { e.kbd with
    bOldLButtonDown := e.kbd.bLButtonDown, bOldRButtonDown := e.kbd.bRButtonDown } }

/-- Per-tick wheel processing: the two v4sa_mousew loops of
IKBD_SendAutoKeyboardCommands. -/
def IKBD_AutoSendWheel (e : Engine) : Engine :=
  let e := wheelUpLoop e.env.mousew.natAbs e
  wheelDownLoop e.env.mousew.natAbs e

/-- Per-tick extra mouse buttons: the diff_mouseb key events and the
mouseb_old update of IKBD_SendAutoKeyboardCommands. -/
def IKBD_AutoSendMouseButtons (e : Engine) : Engine :=
  let diff := e.env.mouseb ^^^ e.mouseb_old
  let e :=
    if diff &&& 0x04 ≠ 0 then
      IKBD_PressSTKey (0x37 ||| (if e.env.mouseb &&& 0x04 ≠ 0 then 0x00 else 0x80)) e
    else e
  let e :=
    if diff &&& 0x08 ≠ 0 then
      IKBD_PressSTKey (0x5e ||| (if e.env.mouseb &&& 0x08 ≠ 0 then 0x00 else 0x80)) e
    else e
  let e :=
    if diff &&& 0x10 ≠ 0 then
      IKBD_PressSTKey (0x5f ||| (if e.env.mouseb &&& 0x10 ≠ 0 then 0x00 else 0x80)) e
    else e
  { e with mouseb_old := e.env.mouseb }

/-- Per-tick custom-program read-handler invocation, last step of
IKBD_SendAutoKeyboardCommands. -/
def IKBD_AutoSendCustomRead (e : Engine) : Engine :=
  match e.custom.IKBD_ExeMode, e.custom.handlerRead with
  | true, some r => runCustomRead r e
  | _, _ => e

/-- Tail of IKBD_SendAutoKeyboardCommands: the per-tick processing that
follows IKBD_UpdateInternalMousePosition. -/
def IKBD_AutoSendTail (e : Engine) : Engine :=
    if e.kp.JoystickMode = AUTOMODE_JOYSTICK_MONITORING then
      IKBD_SendAutoJoysticksMonitoring e
    else
      IKBD_AutoSendCustomRead (IKBD_AutoSendMouseButtons (IKBD_AutoSendWheel (IKBD_AutoSendPackets e)))

/-- IKBD_SendAutoKeyboardCommands from v4sa_ikbd.c: the per-tick entry
point (`tick`). -/
def IKBD_SendAutoKeyboardCommands (e : Engine) : Engine :=
  if e.ikbd_reset_counter ≠ 0 then
    let c := e.ikbd_reset_counter - 1
    let e := { e with ikbd_reset_counter := c }
    if c = 0 then
      acia_ikbd_rx IKBD_ROM_VERSION
        { e with bDuringResetCriticalTime := false, bMouseEnabledDuringReset := false }
    else e
  else
    let e := { e with kbd := { e.kbd with
      bLButtonDown := if e.env.mouseb &&& 2 ≠ 0 then BUTTON_MOUSE else 0,
      bRButtonDown := if e.env.mouseb &&& 1 ≠ 0 then BUTTON_MOUSE else 0 } }
    let e := IKBD_GetJoystickData e
    let e := IKBD_DuplicateMouseFireButtons e
    let e := IKBD_SendOnMouseAction e
    let e := IKBD_UpdateInternalMousePosition e
    IKBD_AutoSendTail e

/-- The default_scancodes table of IKBD_Init. -/
def default_scancodes : List Nat :=
  [ 0x5b, 0x02, 0x03, 0x04, 0x05, 0x06, 0x07, 0x08
  , 0x09, 0x0a, 0x0b, 0x0c, 0x0d, 0x29, 0x00, 0x70
  , 0x10, 0x11, 0x12, 0x13, 0x14, 0x15, 0x16, 0x17
  , 0x18, 0x19, 0x1a, 0x1b, 0x00, 0x6d, 0x6e, 0x6f
  , 0x1e, 0x1f, 0x20, 0x21, 0x22, 0x23, 0x24, 0x25
  , 0x26, 0x27, 0x28, 0x2b, 0x00, 0x6a, 0x6b, 0x6c
  , 0x60, 0x2c, 0x2d, 0x2e, 0x2f, 0x30, 0x31, 0x32
  , 0x33, 0x34, 0x35, 0x00, 0x71, 0x67, 0x68, 0x69
  , 0x39, 0x0e, 0x0f, 0x72, 0x1c, 0x01, 0x53, 0x00
  , 0x00, 0x00, 0x4a, 0x62, 0x48, 0x50, 0x4d, 0x4b
  , 0x3b, 0x3c, 0x3d, 0x3e, 0x3f, 0x40, 0x41, 0x42
  , 0x43, 0x44, 0x63, 0x64, 0x65, 0x66, 0x4e, 0x62
  , 0x2a, 0x36, 0x3a, 0x1d, 0x38, 0x4C, 0x56, 0x57
  , 0x00, 0x00, 0x00, 0x00, 0x00, 0x00, 0x00, 0x61
  , 0x47, 0x52, 0x00, 0x00, 0x00, 0x00, 0x00, 0x00
  , 0x00, 0x00, 0x59, 0x5A, 0x5C, 0x5D, 0x37, 0x00 ]

/-- The default joypad 0 (and 2) map: scancode[16] ++ joystick[16]. -/
def joypadDefault0 : JOYPAD :=
  { map := [ 0, 0, 0, 0, 0, 0, 0, 0, 0, 0, 0, 0, 0, 0, 0, 0
           , 0x80, 0x00, 0x00, 0x00, 0x00, 0x00, 0x00, 0x00
           , 0x00, 0x00, 0x00, 0x00, 0x02, 0x08, 0x01, 0x04 ]
  , state := 0, joystick := 0 }

/-- The default joypad 1 (and 3) map: scancode[16] ++ joystick[16]. -/
def joypadDefault1 : JOYPAD :=
  { map := [ 0, 0, 0, 0, 20, 21, 22, 23, 24, 25, 30, 31, 0, 0, 0, 0
           , 0x80, 0x01, 0x81, 0x82, 0x00, 0x00, 0x00, 0x00
           , 0x00, 0x00, 0x00, 0x00, 0x02, 0x08, 0x01, 0x04 ]
  , state := 0, joystick := 0 }

/-- IKBD_Init from v4sa_ikbd.c: installs the default scancode table and
the default joypad maps. -/
def IKBD_Init (e : Engine) : Engine :=
  { e with scancodes := default_scancodes,
           joypad0 := joypadDefault0, joypad1 := joypadDefault1,
           joypad2 := joypadDefault0, joypad3 := joypadDefault1 }

/-- The zero-initialised C globals before IKBD_Init runs (static
initialisers included: MemoryLoadCrc = 0xffffffff, ChaosIgnoreNb = 8,
ChaosFirstCall = true). -/
def initEngine : Engine :=
  { kp := { Abs := { X := 0, Y := 0, MaxX := 0, MaxY := 0, PrevReadAbsMouseButtons := 0 },
            Mouse := { DeltaX := 0, DeltaY := 0, XScale := 0, YScale := 0,
                       XThreshold := 0, YThreshold := 0,
                       KeyCodeDeltaX := 0, KeyCodeDeltaY := 0, YAxis := 0, Action := 0 },
            Joy := { JoyData0 := 0, JoyData1 := 0, PrevJoyData0 := 0, PrevJoyData1 := 0 },
            MouseMode := 0, JoystickMode := 0 },
    kbd := { PauseOutput := false, InputBuffer := [],
             bLButtonDown := 0, bRButtonDown := 0,
             bOldLButtonDown := 0, bOldRButtonDown := 0, AutoSendCycles := 0 },
    Clock := [0, 0, 0, 0, 0, 0], ClockMicro := 0,
    ScanCodeState := List.replicate 128 0,
    scancodes := List.replicate 128 0,
    joypad0 := { map := List.replicate 32 0, state := 0, joystick := 0 },
    joypad1 := { map := List.replicate 32 0, state := 0, joystick := 0 },
    joypad2 := { map := List.replicate 32 0, state := 0, joystick := 0 },
    joypad3 := { map := List.replicate 32 0, state := 0, joystick := 0 },
    bMouseDisabled := false, bJoystickDisabled := false,
    bDuringResetCriticalTime := false, bBothMouseAndJoy := false,
    bMouseEnabledDuringReset := false,
    ikbd_reset_counter := 0,
    custom := { MemoryLoadNbBytesAddr := 0, MemoryLoadNbBytesTotal := 0,
                MemoryLoadNbBytesLeft := 0, MemoryLoadCrc := crc32_init,
                MemoryExeNbBytes := 0, handlerRead := none, handlerWrite := none,
                IKBD_ExeMode := false, ASmagic := false, ASReadCount := 0,
                ChaosFirstCall := true, ChaosIgnoreNb := 8,
                ChaosIndex := 0, ChaosCount := 0 },
    mouseb_old := 0,
    env := { mousex := 0, mousey := 0, mouseb := 0, mousew := 0, joyb0 := 0, joyb1 := 0 },
    out := [] }

/-- Engine state after v4sa_machine_init: IKBD_Init followed by the
cold IKBD_Reset. -/
def bootEngine : Engine :=
  IKBD_Reset true (IKBD_Init initEngine)

/-- Feeding a byte sequence through IKBD_Process_RDR (`submit`). -/
def feedBytes (bs : List Nat) (e : Engine) : Engine :=
  bs.foldl (fun e b => IKBD_Process_RDR b e) e

/-- Bytes emitted by one call of `f` on `e` (the suffix appended to the
output stream). -/
def newOut (f : Engine → Engine) (e : Engine) : List Nat :=
  (f e).out.drop e.out.length

/-- The load-stage byte sequence used to exercise the custom-program
layer for the Audio Sculpture registry entry: the Load Memory command
(destination 0x0000, 8 bytes) followed by 8 bytes whose running CRC is
exactly the registered load-stage checksum 0xbc0c206d. -/
def asLoadSeq : List Nat := [0x20, 0x00, 0x00, 8, 0, 0, 14, 36, 4, 197, 10, 100]

/-- A 91-byte main program whose length and running CRC match the Audio
Sculpture (color) registry entry (91 bytes, CRC 0x119b26ed). -/
def asMainProg : List Nat := List.replicate 83 0 ++ [0, 4, 7, 212, 44, 64, 16, 25]

/-- The load-stage byte sequence matching the Froggies Over The Fence
registry entry (load-stage checksum 0x2efb11b1). -/
def frogLoadSeq : List Nat := [0x20, 0x00, 0x00, 8, 0, 0, 1, 72, 250, 85, 129, 2]

/-- The absolute pointer invariant of the spec: X and Y lie within
[0, MaxX] and [0, MaxY]. -/
def AbsInBounds (e : Engine) : Prop :=
  0 ≤ e.kp.Abs.X ∧ e.kp.Abs.X ≤ e.kp.Abs.MaxX ∧
  0 ≤ e.kp.Abs.Y ∧ e.kp.Abs.Y ≤ e.kp.Abs.MaxY

/-- The engine state after the boot countdown: the 40th tick clears the
critical window and emits the boot-complete byte 0xF1. -/
def readyEngine : Engine :=
  { bootEngine with bDuringResetCriticalTime := false, ikbd_reset_counter := 0,
                    out := [0xF1] }

/-- Intermediate state of the custom-program load/execute scenario:
after the Audio Sculpture load stage, the Execute command and `cnt`
main-program bytes (running CRC `crc`), only the custom-execution
state differs from the boot state. -/
def asMidState (crc : Nat) (cnt : Int) : Engine :=
  { bootEngine with custom :=
    { MemoryLoadNbBytesAddr := 8, MemoryLoadNbBytesTotal := 8,
      MemoryLoadNbBytesLeft := 0, MemoryLoadCrc := crc,
      MemoryExeNbBytes := cnt, handlerRead := none,
      handlerWrite := some CustomW.commonBoot, IKBD_ExeMode := true,
      ASmagic := false, ASReadCount := 0, ChaosFirstCall := true,
      ChaosIgnoreNb := 8, ChaosIndex := 0, ChaosCount := 0 } }

/-- An engine whose command buffer is full with a recognised command
head (hypothetical full-buffer state used to witness C1). -/
def fullBufEngine : Engine :=
  { bootEngine with kbd := { bootEngine.kbd with
      InputBuffer := [0x1B, 0, 0, 0, 0, 0, 0, 0] } }

/-- Concrete state for the C10 witness: after the boot countdown, with
lane-1 fire held (joyb1 = 1 sampled already) and 0x80 recorded as the
previously sent lane-1 mask. -/
def c10WitnessState : Engine :=
  { readyEngine with
    env := { readyEngine.env with joyb1 := 1 },
    joypad1 := { readyEngine.joypad1 with state := 1 },
    kp := { readyEngine.kp with Joy := { readyEngine.kp.Joy with PrevJoyData1 := 0x80 } },
    out := [] }

set_option maxRecDepth 5000

theorem absInBounds_of_eq {e' e : Engine}
    (h1 : e'.kp.Abs.X = e.kp.Abs.X) (h2 : e'.kp.Abs.Y = e.kp.Abs.Y)
    (h3 : e'.kp.Abs.MaxX = e.kp.Abs.MaxX) (h4 : e'.kp.Abs.MaxY = e.kp.Abs.MaxY)
    (h : AbsInBounds e) : AbsInBounds e' := by
  unfold AbsInBounds at *
  rw [h1, h2, h3, h4]
  exact h

theorem absInBounds_set_env (x : Engine) (v : ENV) (h : AbsInBounds x) :
    AbsInBounds { x with env := v } := h

theorem absInBounds_set_kbd (x : Engine) (v : KEYBOARD) (h : AbsInBounds x) :
    AbsInBounds { x with kbd := v } := h

theorem absInBounds_set_mouseb_old (x : Engine) (v : Nat) (h : AbsInBounds x) :
    AbsInBounds { x with mouseb_old := v } := h

theorem absInBounds_bootROM (c : Bool) (e : Engine) :
    AbsInBounds (IKBD_Boot_ROM c e) := by
  have habs : (IKBD_Boot_ROM c e).kp.Abs
      = { X := 0, Y := 0, MaxX := 320, MaxY := 200,
          PrevReadAbsMouseButtons := ABS_PREVBUTTONS } := by
    simp only [IKBD_Boot_ROM]
    split <;> split <;> rfl
  unfold AbsInBounds
  rw [habs]
  refine ⟨le_refl 0, by norm_num, le_refl 0, by norm_num⟩

theorem joyScanLoop_kp (fuel j changed state : Nat) (m : List Nat) (acc : Nat)
    (e : Engine) : (joyScanLoop fuel j changed state m acc e).2.kp = e.kp := by
  induction fuel generalizing j changed state acc e with
  | zero => rfl
  | succ n ih =>
    simp only [joyScanLoop]
    split
    · rfl
    · rw [ih]
      split
      · rfl
      · split <;> rfl

theorem getJoystickData_abs (e : Engine) :
    (IKBD_GetJoystickData e).kp.Abs = e.kp.Abs := by
  simp only [IKBD_GetJoystickData, joyScanLoop_kp]

theorem duplicateMouseFireButtons_abs (e : Engine) :
    (IKBD_DuplicateMouseFireButtons e).kp.Abs = e.kp.Abs := by
  simp only [IKBD_DuplicateMouseFireButtons]
  split
  · split <;> split <;> rfl
  · split <;> rfl

theorem readAbsMousePos_absXY (e : Engine) :
    (IKBD_Cmd_ReadAbsMousePos e).kp.Abs.X = e.kp.Abs.X ∧
    (IKBD_Cmd_ReadAbsMousePos e).kp.Abs.Y = e.kp.Abs.Y ∧
    (IKBD_Cmd_ReadAbsMousePos e).kp.Abs.MaxX = e.kp.Abs.MaxX ∧
    (IKBD_Cmd_ReadAbsMousePos e).kp.Abs.MaxY = e.kp.Abs.MaxY := by
  refine ⟨rfl, rfl, rfl, rfl⟩

theorem sendOnMouseAction_absXY (e : Engine) :
    (IKBD_SendOnMouseAction e).kp.Abs.X = e.kp.Abs.X ∧
    (IKBD_SendOnMouseAction e).kp.Abs.Y = e.kp.Abs.Y ∧
    (IKBD_SendOnMouseAction e).kp.Abs.MaxX = e.kp.Abs.MaxX ∧
    (IKBD_SendOnMouseAction e).kp.Abs.MaxY = e.kp.Abs.MaxY := by
  simp only [IKBD_SendOnMouseAction, sendButtonKeys]
  repeat' split
  all_goals exact ⟨rfl, rfl, rfl, rfl⟩

theorem updateInternalMousePosition_bounds (e : Engine)
    (hx : 0 ≤ e.kp.Abs.MaxX) (hy : 0 ≤ e.kp.Abs.MaxY) :
    AbsInBounds (IKBD_UpdateInternalMousePosition e) := by
  unfold AbsInBounds IKBD_UpdateInternalMousePosition
  dsimp only
  split_ifs <;> constructor <;> (try constructor) <;> (try constructor) <;> omega

theorem sendAutoJoysticks_absInBounds (e : Engine) (h : AbsInBounds e) :
    AbsInBounds (IKBD_SendAutoJoysticks e) := by
  simp only [IKBD_SendAutoJoysticks, acia_ikbd_rx]
  split <;> split <;> exact absInBounds_of_eq rfl rfl rfl rfl h

theorem sendRelLoop_absInBounds (fuel : Nat) (e : Engine) (h : AbsInBounds e) :
    AbsInBounds (sendRelLoop fuel e) := by
  induction fuel generalizing e with
  | zero => exact h
  | succ n ih =>
    simp only [sendRelLoop]
    split
    · exact ih _ (absInBounds_of_eq rfl rfl rfl rfl h)
    · exact h

theorem sendButtonKeys_absInBounds (e : Engine) (h : AbsInBounds e) :
    AbsInBounds (sendButtonKeys e) := by
  simp only [sendButtonKeys]
  repeat' split
  all_goals exact absInBounds_of_eq rfl rfl rfl rfl h

theorem sendButtonKeys_abs (e : Engine) :
    (sendButtonKeys e).kp.Abs = e.kp.Abs := by
  simp only [sendButtonKeys, acia_ikbd_rx, apply_ite Engine.kp,
    apply_ite KEYBOARD_PROCESSOR.Abs, ite_self]

theorem cursorLoop_abs (fuel : Nat) (e : Engine) :
    (cursorLoop fuel e).kp.Abs = e.kp.Abs := by
  induction fuel generalizing e with
  | zero => rfl
  | succ n ih =>
    simp only [cursorLoop]
    simp only [ih, sendButtonKeys_abs, acia_ikbd_rx, apply_ite Engine.kp,
      apply_ite KEYBOARD_PROCESSOR.Abs, ite_self]

theorem cursorLoop_absInBounds (fuel : Nat) (e : Engine) (h : AbsInBounds e) :
    AbsInBounds (cursorLoop fuel e) :=
  absInBounds_of_eq (by rw [cursorLoop_abs]) (by rw [cursorLoop_abs])
    (by rw [cursorLoop_abs]) (by rw [cursorLoop_abs]) h

theorem runCustomRead_absInBounds (r : CustomR) (e : Engine) (h : AbsInBounds e) :
    AbsInBounds (runCustomRead r e) := by
  cases r with
  | froggies => exact h
  | transbeauce2 =>
    simp only [runCustomRead, IKBD_CustomCodeHandler_Transbeauce2Menu_Read]
    exact absInBounds_of_eq rfl rfl rfl rfl h
  | dragonnels => exact h
  | chaosAD =>
    simp only [runCustomRead, IKBD_CustomCodeHandler_ChaosAD_Read]
    split <;> exact absInBounds_of_eq rfl rfl rfl rfl h
  | asColor =>
    simp only [runCustomRead, IKBD_CustomCodeHandler_AudioSculpture_Color_Read,
      IKBD_CustomCodeHandler_AudioSculpture_Read]
    split
    · split
      · exact absInBounds_of_eq rfl rfl rfl rfl (absInBounds_bootROM false e)
      · exact absInBounds_of_eq rfl rfl rfl rfl h
    · split
      · exact absInBounds_of_eq rfl rfl rfl rfl h
      · exact h
  | asMono =>
    simp only [runCustomRead, IKBD_CustomCodeHandler_AudioSculpture_Mono_Read,
      IKBD_CustomCodeHandler_AudioSculpture_Read]
    split
    · split
      · exact absInBounds_of_eq rfl rfl rfl rfl (absInBounds_bootROM false e)
      · exact absInBounds_of_eq rfl rfl rfl rfl h
    · split
      · exact absInBounds_of_eq rfl rfl rfl rfl h
      · exact h

theorem pressSTKey_absInBounds (code : Nat) (e : Engine) (h : AbsInBounds e) :
    AbsInBounds (IKBD_PressSTKey code e) := by
  simp only [IKBD_PressSTKey]
  split
  · exact h
  · split
    · apply runCustomRead_absInBounds
      exact absInBounds_of_eq rfl rfl rfl rfl h
    · exact absInBounds_of_eq rfl rfl rfl rfl h

theorem wheelBurst_absInBounds (last : Nat) (e : Engine) (h : AbsInBounds e) :
    AbsInBounds (wheelBurst last e) := by
  simp only [wheelBurst]
  repeat apply pressSTKey_absInBounds
  exact h

theorem wheelUpLoop_absInBounds (fuel : Nat) (e : Engine) (h : AbsInBounds e) :
    AbsInBounds (wheelUpLoop fuel e) := by
  induction fuel generalizing e with
  | zero => exact h
  | succ n ih =>
    simp only [wheelUpLoop]
    split
    · exact ih _ (absInBounds_set_env _ _ (wheelBurst_absInBounds _ _ h))
    · exact h

theorem wheelDownLoop_absInBounds (fuel : Nat) (e : Engine) (h : AbsInBounds e) :
    AbsInBounds (wheelDownLoop fuel e) := by
  induction fuel generalizing e with
  | zero => exact h
  | succ n ih =>
    simp only [wheelDownLoop]
    split
    · exact ih _ (absInBounds_set_env _ _ (wheelBurst_absInBounds _ _ h))
    · exact h

theorem sendRelMousePacket_absInBounds (e : Engine) (h : AbsInBounds e) :
    AbsInBounds (IKBD_SendRelMousePacket e) :=
  sendRelLoop_absInBounds _ e h

theorem sendCursorMousePacket_absInBounds (e : Engine) (h : AbsInBounds e) :
    AbsInBounds (IKBD_SendCursorMousePacket e) :=
  cursorLoop_absInBounds 10 e h

theorem autoSendPackets_absInBounds (e : Engine) (h : AbsInBounds e) :
    AbsInBounds (IKBD_AutoSendPackets e) := by
  simp only [IKBD_AutoSendPackets]
  repeat' split
  all_goals
    first
    | exact absInBounds_set_kbd _ _
        (sendRelMousePacket_absInBounds _ (sendAutoJoysticks_absInBounds _ h))
    | exact absInBounds_set_kbd _ _ (sendRelMousePacket_absInBounds _ h)
    | exact absInBounds_set_kbd _ _
        (sendCursorMousePacket_absInBounds _ (sendAutoJoysticks_absInBounds _ h))
    | exact absInBounds_set_kbd _ _ (sendCursorMousePacket_absInBounds _ h)
    | exact absInBounds_set_kbd _ _ (sendAutoJoysticks_absInBounds _ h)
    | exact absInBounds_set_kbd _ _ h

theorem autoSendWheel_absInBounds (e : Engine) (h : AbsInBounds e) :
    AbsInBounds (IKBD_AutoSendWheel e) := by
  simp only [IKBD_AutoSendWheel]
  exact wheelDownLoop_absInBounds _ _ (wheelUpLoop_absInBounds _ _ h)

theorem autoSendMouseButtons_absInBounds (e : Engine) (h : AbsInBounds e) :
    AbsInBounds (IKBD_AutoSendMouseButtons e) := by
  simp only [IKBD_AutoSendMouseButtons]
  repeat' split
  all_goals
    first
    | exact absInBounds_set_mouseb_old _ _ (pressSTKey_absInBounds _ _
        (pressSTKey_absInBounds _ _ (pressSTKey_absInBounds _ _ h)))
    | exact absInBounds_set_mouseb_old _ _
        (pressSTKey_absInBounds _ _ (pressSTKey_absInBounds _ _ h))
    | exact absInBounds_set_mouseb_old _ _ (pressSTKey_absInBounds _ _ h)
    | exact absInBounds_set_mouseb_old _ _ h

theorem autoSendCustomRead_absInBounds (e : Engine) (h : AbsInBounds e) :
    AbsInBounds (IKBD_AutoSendCustomRead e) := by
  simp only [IKBD_AutoSendCustomRead]
  split
  · exact runCustomRead_absInBounds _ _ h
  · exact h

theorem autoSendTail_absInBounds (e : Engine) (h : AbsInBounds e) :
    AbsInBounds (IKBD_AutoSendTail e) := by
  simp only [IKBD_AutoSendTail]
  split
  · exact absInBounds_of_eq rfl rfl rfl rfl h
  · exact autoSendCustomRead_absInBounds _
      (autoSendMouseButtons_absInBounds _
        (autoSendWheel_absInBounds _ (autoSendPackets_absInBounds _ h)))

/-- C3 (amended): once the reset countdown has expired, a tick leaves
the internal absolute mouse position inside [0, MaxX] x [0, MaxY]
whenever the maxima are nonnegative, whatever state the coordinates
were in before. -/
theorem c3_amended_tick_bounds (e : Engine)
    (hc : e.ikbd_reset_counter = 0)
    (hx : 0 ≤ e.kp.Abs.MaxX) (hy : 0 ≤ e.kp.Abs.MaxY) :
    AbsInBounds (IKBD_SendAutoKeyboardCommands e) := by
  unfold IKBD_SendAutoKeyboardCommands
  split
  · exact absurd hc (by assumption)
  · apply autoSendTail_absInBounds
    apply updateInternalMousePosition_bounds
    · rw [(sendOnMouseAction_absXY _).2.2.1, duplicateMouseFireButtons_abs,
        getJoystickData_abs]
      exact hx
    · rw [(sendOnMouseAction_absXY _).2.2.2, duplicateMouseFireButtons_abs,
        getJoystickData_abs]
      exact hy

/-- Witness for the amended C3 at the post-countdown boot state. -/
theorem c3_amended_tick_bounds_witness :
    AbsInBounds (IKBD_SendAutoKeyboardCommands
      { bootEngine with ikbd_reset_counter := 0 }) :=
  c3_amended_tick_bounds { bootEngine with ikbd_reset_counter := 0 }
    (by decide) (by decide) (by decide)

/-!  ## Theorems

Long concrete runs are evaluated in chunks: an intermediate engine state
is stated as a literal, proved equal to the folded state by `decide`,
and the run continues from the literal (kernel reduction of a single
long fold is too deep otherwise). -/

/-- Feeding a concatenation feeds the two halves in order. -/
theorem feedBytes_append (a b : List Nat) (e : Engine) :
    feedBytes (a ++ b) e = feedBytes b (feedBytes a e) :=
  List.foldl_append _ _ a b

/-- 40 ticks from boot reach readyEngine. -/
theorem readyEngine_reached :
    Nat.iterate IKBD_SendAutoKeyboardCommands 40 bootEngine = readyEngine := by
  decide

/-- Load stage, Execute and 5 main bytes reach the first midpoint. -/
theorem asChunk0 :
    feedBytes (asLoadSeq ++ [0x22, 0x00, 0x00] ++ List.replicate 5 0) bootEngine
      = asMidState 1192278940 5 := by
  decide

/-- 20 further zero main-program bytes (5 → 25). -/
theorem asChunk1 :
    feedBytes (List.replicate 20 0) (asMidState 1192278940 5) = asMidState 244255848 25 := by
  decide

/-- 20 further zero main-program bytes (25 → 45). -/
theorem asChunk2 :
    feedBytes (List.replicate 20 0) (asMidState 244255848 25) = asMidState 3658940060 45 := by
  decide

/-- 20 further zero main-program bytes (45 → 65). -/
theorem asChunk3 :
    feedBytes (List.replicate 20 0) (asMidState 3658940060 45) = asMidState 286280775 65 := by
  decide

/-- 18 zero bytes and the first two tail bytes (65 → 85). -/
theorem asChunk4 :
    feedBytes (List.replicate 18 0 ++ [0, 4]) (asMidState 286280775 65)
      = asMidState 2585035253 85 := by
  decide

/-- C8: feeding the Load Memory command with a byte sequence whose CRC
matches the Audio Sculpture load-stage checksum, then Execute, then a
91-byte sequence whose length and running CRC match that entry's
main-program signature, installs the entry's steady-state read/write
handlers; a subsequent submit of the magic byte 0x42 then emits exactly
0x4B followed by 0x13. -/
theorem c8_custom_program_flow :
    List.foldl crc32_add_byte crc32_init (asLoadSeq.drop 4) = 0xbc0c206d ∧
    asMainProg.length = 91 ∧
    List.foldl crc32_add_byte crc32_init asMainProg = 0x119b26ed ∧
    (let s := feedBytes (asLoadSeq ++ [0x22, 0x00, 0x00] ++ asMainProg ++ [0x42]) bootEngine
     s.custom.handlerRead = some CustomR.asColor ∧
     s.custom.handlerWrite = some CustomW.audioSculpture ∧
     s.custom.IKBD_ExeMode = true ∧
     s.out = [0x4B, 0x13]) := by
  refine ⟨by decide, by decide, ?_, ?_⟩
  · have hsp : asMainProg
        = List.replicate 20 0 ++ (List.replicate 20 0 ++ (List.replicate 20 0 ++
          (List.replicate 20 0 ++ [0, 0, 0, 0, 4, 7, 212, 44, 64, 16, 25]))) := by
      decide
    have h20 : List.foldl crc32_add_byte crc32_init (List.replicate 20 0) = 1311134735 := by
      decide
    have h40 : List.foldl crc32_add_byte 1311134735 (List.replicate 20 0) = 1917044840 := by
      decide
    have h60 : List.foldl crc32_add_byte 1917044840 (List.replicate 20 0) = 4017010655 := by
      decide
    have h80 : List.foldl crc32_add_byte 4017010655 (List.replicate 20 0) = 2565290894 := by
      decide
    rw [hsp, List.foldl_append, h20, List.foldl_append, h40, List.foldl_append, h60,
        List.foldl_append, h80]
    decide
  · have hsplit : asLoadSeq ++ [0x22, 0x00, 0x00] ++ asMainProg ++ [0x42]
        = (asLoadSeq ++ [0x22, 0x00, 0x00] ++ List.replicate 5 0) ++
          (List.replicate 20 0 ++ (List.replicate 20 0 ++ (List.replicate 20 0 ++
          ((List.replicate 18 0 ++ [0, 4]) ++ [7, 212, 44, 64, 16, 25, 0x42])))) := by
      decide
    show _ ∧ _ ∧ _ ∧ _
    rw [hsplit, feedBytes_append, asChunk0, feedBytes_append, asChunk1,
        feedBytes_append, asChunk2, feedBytes_append, asChunk3,
        feedBytes_append, asChunk4]
    decide

/-- C2 (code bug): after the reset countdown has expired, command 0x13
sets the pause flag, yet the next tick still emits a relative mouse
packet — the engine never consults PauseOutput when emitting, although
the header documents the flag as suppressing all output. -/
theorem c2_pause_has_no_effect :
    (let s := Nat.iterate IKBD_SendAutoKeyboardCommands 40 bootEngine
     let s1 := IKBD_Process_RDR 0x13 s
     s1.kbd.PauseOutput = true ∧
     newOut IKBD_SendAutoKeyboardCommands
       { s1 with env := { s1.env with mousex := 5 } } = [0xF8, 5, 0]) := by
  show (let s1 := IKBD_Process_RDR 0x13 (Nat.iterate IKBD_SendAutoKeyboardCommands 40 bootEngine)
        _ ∧ _)
  rw [readyEngine_reached]
  decide

/-- C3 (counterexample): from the boot state, the Load Mouse Position
command 0x0E with coordinate 0x0200 leaves the absolute X position at
512, strictly above MaxX = 320 — the claimed invariant fails right
after the command. -/
theorem c3_counterexample :
    (let s := feedBytes [0x0E, 0x00, 0x02, 0x00, 0x00, 0x00] bootEngine
     s.kp.Abs.MaxX < s.kp.Abs.X ∧ s.kp.Abs.MaxX = 320 ∧ s.kp.Abs.X = 512) := by
  decide

/-- C4 (counterexample): after a completed memory load whose CRC matches
a registry entry (boot write handler installed, execute mode still off),
the Reset command 0x80 0x01 runs IKBD_Boot_ROM but does NOT tear down
the custom write handler: the teardown in IKBD_Boot_ROM is guarded by
`MemoryLoadNbBytesLeft != 0 || IKBD_ExeMode`. -/
theorem c4_counterexample :
    (let mid := feedBytes frogLoadSeq bootEngine
     let s := feedBytes [0x80, 0x01] mid
     mid.custom.handlerWrite = some CustomW.commonBoot ∧
     mid.custom.IKBD_ExeMode = false ∧
     mid.custom.MemoryLoadNbBytesLeft = 0 ∧
     s.kp.MouseMode = AUTOMODE_MOUSEREL ∧
     s.ikbd_reset_counter = 40 ∧
     s.custom.handlerWrite = some CustomW.commonBoot) := by
  decide

/-- C9 (counterexample): in joystick-monitoring mode (reachable from
boot via command 0x17), IKBD_PressSTKey ignores the key event entirely:
scan code 0x01 (press of key 1) neither updates the key press table nor
emits anything. -/
theorem c9_counterexample :
    (let s := feedBytes [0x17, 0x01] bootEngine
     let s2 := IKBD_PressSTKey 0x01 s
     s2.ScanCodeState.getD 1 0 = 0 ∧ s2.out = s.out) := by
  decide

/-- Every dispatch-table entry expects at most 7 buffered bytes. -/
theorem keyboardCommands_params_le :
    ∀ c ∈ KeyboardCommands, c.NumParameters ≤ 7 := by
  decide

/-- The memory loader never touches the keyboard state. -/
theorem loadMemoryByte_kbd (b : Nat) (e : Engine) :
    (IKBD_LoadMemoryByte b e).kbd = e.kbd := by
  simp only [IKBD_LoadMemoryByte, mem_write]
  repeat' split
  all_goals rfl

/-- IKBD_Boot_ROM leaves the command input buffer empty. -/
theorem bootROM_inputBuffer (c : Bool) (e : Engine) :
    (IKBD_Boot_ROM c e).kbd.InputBuffer = [] := by
  simp only [IKBD_Boot_ROM]
  split <;> split <;> rfl

/-- A custom write handler either leaves the command input buffer
unchanged or (via a self-triggered reset) clears it. -/
theorem runCustomWrite_inputBuffer (w : CustomW) (b : Nat) (e : Engine) :
    (runCustomWrite w b e).kbd.InputBuffer = e.kbd.InputBuffer ∨
    (runCustomWrite w b e).kbd.InputBuffer = [] := by
  cases w with
  | commonBoot =>
    left
    simp only [runCustomWrite, IKBD_CustomCodeHandler_CommonBoot]
    split <;> rfl
  | froggies =>
    simp only [runCustomWrite, IKBD_CustomCodeHandler_FroggiesMenu_Write]
    split
    · right; exact bootROM_inputBuffer false _
    · left; split <;> (try split) <;> rfl
  | transbeauce2 => left; rfl
  | dragonnels => left; rfl
  | chaosAD =>
    simp only [runCustomWrite, IKBD_CustomCodeHandler_ChaosAD_Write]
    split
    · left; rfl
    · split
      · left; rfl
      · split
        · right; exact bootROM_inputBuffer false _
        · left; rfl
  | audioSculpture =>
    left
    simp only [runCustomWrite, IKBD_CustomCodeHandler_AudioSculpture_Write]
    split <;> rfl

/-- One submitted byte keeps the input buffer within its capacity. -/
theorem runKeyboardCommand_len (b : Nat) (e : Engine)
    (h : e.kbd.InputBuffer.length ≤ 8) :
    (IKBD_RunKeyboardCommand b e).kbd.InputBuffer.length ≤ 8 := by
  simp only [IKBD_RunKeyboardCommand]
  split <;> (try split) <;> (try split) <;> simp_all
  all_goals omega

/-- One byte through the full submit entry point keeps the input buffer
within its capacity. -/
theorem processRDR_len (b : Nat) (e : Engine) (h : e.kbd.InputBuffer.length ≤ 8) :
    (IKBD_Process_RDR b e).kbd.InputBuffer.length ≤ 8 := by
  simp only [IKBD_Process_RDR]
  split
  · rcases runCustomWrite_inputBuffer _ (b % 256) e with h2 | h2 <;> rw [h2] <;> simp [h]
  · split
    · exact runKeyboardCommand_len _ _ h
    · rw [loadMemoryByte_kbd _ _]; exact h

/-- C1: feeding any byte sequence through submit never grows the command
input buffer beyond 8 entries; and when the buffer already holds 8 bytes
of a recognised command, a newly received byte is silently dropped and
the whole engine state (in particular the buffer contents) is unchanged. -/
theorem c1_input_buffer_bounded :
    (∀ (e : Engine) (bytes : List Nat), e.kbd.InputBuffer.length ≤ 8 →
        ((feedBytes bytes e).kbd.InputBuffer).length ≤ 8) ∧
    (∀ (e : Engine) (b : Nat), e.kbd.InputBuffer.length = 8 →
        (KeyboardCommands.find? (fun c => c.Command = e.kbd.InputBuffer.getD 0 0)).isSome →
        IKBD_RunKeyboardCommand b e = e) := by
  constructor
  · intro e bytes
    induction bytes generalizing e with
    | nil => intro h; exact h
    | cons b bs ih =>
      intro h
      simp only [feedBytes, List.foldl] at *
      exact ih _ (processRDR_len b e h)
  · intro e b h hsome
    have hlt : ¬ (e.kbd.InputBuffer.length < 8) := by omega
    simp only [IKBD_RunKeyboardCommand, if_neg hlt]
    split
    · next c hc =>
      have hle : c.NumParameters ≤ 7 :=
        keyboardCommands_params_le c (List.mem_of_find?_eq_some hc)
      rw [if_neg (by omega : ¬ (c.NumParameters = e.kbd.InputBuffer.length))]
    · next hc => rw [hc] at hsome; simp at hsome

/-- Witness for C1 at concrete inputs. -/
theorem c1_input_buffer_bounded_witness :
    ((feedBytes [0x1B, 0x11, 0x22] bootEngine).kbd.InputBuffer).length ≤ 8 ∧
    IKBD_RunKeyboardCommand 0x42 fullBufEngine = fullBufEngine :=
  ⟨c1_input_buffer_bounded.1 bootEngine [0x1B, 0x11, 0x22] (by decide),
   c1_input_buffer_bounded.2 fullBufEngine 0x42 (by decide) (by decide)⟩

/-- C6: if the disable-mouse (0x12) and disable-joysticks (0x1A)
commands are both received (in either order) while the post-reset
critical window is still open, the engine ends with pointer mode
Relative, joystick mode Auto, and the both-mouse-and-joystick flag set. -/
theorem c6_reset_window_bug (e : Engine)
    (hw : e.bDuringResetCriticalTime = true)
    (he : e.custom.IKBD_ExeMode = false)
    (hl : e.custom.MemoryLoadNbBytesLeft = 0)
    (hb : e.kbd.InputBuffer = []) :
    ((feedBytes [0x12, 0x1A] e).kp.MouseMode = AUTOMODE_MOUSEREL ∧
     (feedBytes [0x12, 0x1A] e).kp.JoystickMode = AUTOMODE_JOYSTICK ∧
     (feedBytes [0x12, 0x1A] e).bBothMouseAndJoy = true) ∧
    ((feedBytes [0x1A, 0x12] e).kp.MouseMode = AUTOMODE_MOUSEREL ∧
     (feedBytes [0x1A, 0x12] e).kp.JoystickMode = AUTOMODE_JOYSTICK ∧
     (feedBytes [0x1A, 0x12] e).bBothMouseAndJoy = true) := by
  constructor
  · cases hjd : e.bJoystickDisabled <;>
      simp [feedBytes, IKBD_Process_RDR, IKBD_RunKeyboardCommand, KeyboardCommands,
        IKBD_Cmd_TurnMouseOff, IKBD_Cmd_DisableJoysticks, IKBD_CheckResetDisableBug,
        List.find?, param, hw, he, hl, hb, hjd]
  · cases hmd : e.bMouseDisabled <;>
      simp [feedBytes, IKBD_Process_RDR, IKBD_RunKeyboardCommand, KeyboardCommands,
        IKBD_Cmd_TurnMouseOff, IKBD_Cmd_DisableJoysticks, IKBD_CheckResetDisableBug,
        List.find?, param, hw, he, hl, hb, hmd]

/-- Witness for C6 at the boot state (window open, standard phase). -/
theorem c6_reset_window_bug_witness :
    ((feedBytes [0x12, 0x1A] bootEngine).kp.MouseMode = AUTOMODE_MOUSEREL ∧
     (feedBytes [0x12, 0x1A] bootEngine).kp.JoystickMode = AUTOMODE_JOYSTICK ∧
     (feedBytes [0x12, 0x1A] bootEngine).bBothMouseAndJoy = true) ∧
    ((feedBytes [0x1A, 0x12] bootEngine).kp.MouseMode = AUTOMODE_MOUSEREL ∧
     (feedBytes [0x1A, 0x12] bootEngine).kp.JoystickMode = AUTOMODE_JOYSTICK ∧
     (feedBytes [0x1A, 0x12] bootEngine).bBothMouseAndJoy = true) :=
  c6_reset_window_bug bootEngine (by decide) (by decide) (by decide) (by decide)

/-- C9 (amended): when joystick-monitoring mode is not active and the
engine is not executing a custom program, onKeyEvent sets the key-press
table entry selected by the code's low 7 bits (pressed when the high bit
is 0, released when it is 1) and emits exactly the raw code byte. -/
theorem c9_amended_press_key (e : Engine) (code : Nat) (hc : code < 256)
    (hm : e.kp.JoystickMode ≠ AUTOMODE_JOYSTICK_MONITORING)
    (he : e.custom.IKBD_ExeMode = false) (ho : e.out = []) :
    (IKBD_PressSTKey code e).ScanCodeState
      = e.ScanCodeState.set (code &&& 0x7f) (if code &&& 0x80 ≠ 0 then 0 else 1) ∧
    (IKBD_PressSTKey code e).out = [code] := by
  have h32 : code % MOD32 = code :=
    Nat.mod_eq_of_lt (lt_trans hc (by decide))
  simp [IKBD_PressSTKey, acia_ikbd_rx, hm, he, ho, h32]

/-- Witness for C9 (amended) at the boot state with code 0xC5
(release of key 0x45). -/
theorem c9_amended_press_key_witness :
    (IKBD_PressSTKey 0xC5 bootEngine).ScanCodeState
      = bootEngine.ScanCodeState.set (0xC5 &&& 0x7f) (if 0xC5 &&& 0x80 ≠ 0 then 0 else 1) ∧
    (IKBD_PressSTKey 0xC5 bootEngine).out = [0xC5] :=
  c9_amended_press_key bootEngine 0xC5 (by decide) (by decide) (by decide) (by decide)

/-- C4 (amended): in the standard phase with an empty buffer, the Reset
command (0x80 0x01) re-initialises the mode store (pointer mode
Relative, joystick mode Auto, reset countdown re-armed, clock
unchanged), clears any pending memory load and turns execute mode off;
the custom read/write handlers are removed only when execute mode was
on — a boot write handler installed by a completed, matched memory load
(execute mode still off) survives the reset. -/
theorem c4_amended_reset (e : Engine)
    (hsp : e.custom.IKBD_ExeMode = false ∨ e.custom.handlerWrite = none)
    (hl : e.custom.MemoryLoadNbBytesLeft = 0)
    (hb : e.kbd.InputBuffer = []) :
    (feedBytes [0x80, 0x01] e).kp.MouseMode = AUTOMODE_MOUSEREL ∧
    (feedBytes [0x80, 0x01] e).kp.JoystickMode = AUTOMODE_JOYSTICK ∧
    (feedBytes [0x80, 0x01] e).ikbd_reset_counter = 40 ∧
    (feedBytes [0x80, 0x01] e).bDuringResetCriticalTime = true ∧
    (feedBytes [0x80, 0x01] e).Clock = e.Clock ∧
    (feedBytes [0x80, 0x01] e).custom.MemoryLoadNbBytesLeft = 0 ∧
    (feedBytes [0x80, 0x01] e).custom.IKBD_ExeMode = false ∧
    (feedBytes [0x80, 0x01] e).custom.handlerWrite
      = (if e.custom.IKBD_ExeMode = true then none else e.custom.handlerWrite) ∧
    (feedBytes [0x80, 0x01] e).custom.handlerRead
      = (if e.custom.IKBD_ExeMode = true then none else e.custom.handlerRead) := by
  rcases hsp with hE | hW
  · simp [feedBytes, IKBD_Process_RDR, IKBD_RunKeyboardCommand, KeyboardCommands,
      List.find?, IKBD_Cmd_Reset, param, IKBD_Boot_ROM, hE, hl, hb]
  · cases hE2 : e.custom.IKBD_ExeMode <;>
      simp [feedBytes, IKBD_Process_RDR, IKBD_RunKeyboardCommand, KeyboardCommands,
        List.find?, IKBD_Cmd_Reset, param, IKBD_Boot_ROM, hW, hE2, hl, hb]

/-- Witness for C4 (amended), applied in the matched-load state where
the boot write handler survives the reset. -/
theorem c4_amended_reset_witness :
    (feedBytes [0x80, 0x01] (feedBytes frogLoadSeq bootEngine)).kp.MouseMode
        = AUTOMODE_MOUSEREL ∧
    (feedBytes [0x80, 0x01] (feedBytes frogLoadSeq bootEngine)).kp.JoystickMode
        = AUTOMODE_JOYSTICK ∧
    (feedBytes [0x80, 0x01] (feedBytes frogLoadSeq bootEngine)).ikbd_reset_counter = 40 ∧
    (feedBytes [0x80, 0x01] (feedBytes frogLoadSeq bootEngine)).bDuringResetCriticalTime = true ∧
    (feedBytes [0x80, 0x01] (feedBytes frogLoadSeq bootEngine)).Clock
        = (feedBytes frogLoadSeq bootEngine).Clock ∧
    (feedBytes [0x80, 0x01] (feedBytes frogLoadSeq bootEngine)).custom.MemoryLoadNbBytesLeft = 0 ∧
    (feedBytes [0x80, 0x01] (feedBytes frogLoadSeq bootEngine)).custom.IKBD_ExeMode = false ∧
    (feedBytes [0x80, 0x01] (feedBytes frogLoadSeq bootEngine)).custom.handlerWrite
      = (if (feedBytes frogLoadSeq bootEngine).custom.IKBD_ExeMode = true then none
         else (feedBytes frogLoadSeq bootEngine).custom.handlerWrite) ∧
    (feedBytes [0x80, 0x01] (feedBytes frogLoadSeq bootEngine)).custom.handlerRead
      = (if (feedBytes frogLoadSeq bootEngine).custom.IKBD_ExeMode = true then none
         else (feedBytes frogLoadSeq bootEngine).custom.handlerRead) :=
  c4_amended_reset (feedBytes frogLoadSeq bootEngine) (by decide) (by decide) (by decide)

/-- C5: for a 6-byte payload of well-formed packed-BCD bytes, Set Clock
(0x1B) followed immediately by Read Clock (0x1C), starting from any
standard-phase state with an empty buffer and empty output, emits
exactly the header 0xFC followed by the six payload bytes in order. -/
theorem c5_clock_roundtrip (e : Engine) (b1 b2 b3 b4 b5 b6 : Nat)
    (l1 : b1 < 256) (l2 : b2 < 256) (l3 : b3 < 256)
    (l4 : b4 < 256) (l5 : b5 < 256) (l6 : b6 < 256)
    (v1 : IKBD_BCD_Check b1 = true) (v2 : IKBD_BCD_Check b2 = true)
    (v3 : IKBD_BCD_Check b3 = true) (v4 : IKBD_BCD_Check b4 = true)
    (v5 : IKBD_BCD_Check b5 = true) (v6 : IKBD_BCD_Check b6 = true)
    (he : e.custom.IKBD_ExeMode = false)
    (hl : e.custom.MemoryLoadNbBytesLeft = 0)
    (hb : e.kbd.InputBuffer = []) (ho : e.out = []) :
    (feedBytes [0x1B, b1, b2, b3, b4, b5, b6, 0x1C] e).out
      = [0xFC, b1, b2, b3, b4, b5, b6] := by
  have t : (256 : Nat) < MOD32 := by decide
  have hfc : (252 : Nat) % MOD32 = 252 := by decide
  have m1 : b1 % 256 = b1 := Nat.mod_eq_of_lt l1
  have m2 : b2 % 256 = b2 := Nat.mod_eq_of_lt l2
  have m3 : b3 % 256 = b3 := Nat.mod_eq_of_lt l3
  have m4 : b4 % 256 = b4 := Nat.mod_eq_of_lt l4
  have m5 : b5 % 256 = b5 := Nat.mod_eq_of_lt l5
  have m6 : b6 % 256 = b6 := Nat.mod_eq_of_lt l6
  have n1 : b1 % MOD32 = b1 := Nat.mod_eq_of_lt (lt_trans l1 t)
  have n2 : b2 % MOD32 = b2 := Nat.mod_eq_of_lt (lt_trans l2 t)
  have n3 : b3 % MOD32 = b3 := Nat.mod_eq_of_lt (lt_trans l3 t)
  have n4 : b4 % MOD32 = b4 := Nat.mod_eq_of_lt (lt_trans l4 t)
  have n5 : b5 % MOD32 = b5 := Nat.mod_eq_of_lt (lt_trans l5 t)
  have n6 : b6 % MOD32 = b6 := Nat.mod_eq_of_lt (lt_trans l6 t)
  simp [feedBytes, IKBD_Process_RDR, IKBD_RunKeyboardCommand, KeyboardCommands,
    List.find?, IKBD_Cmd_SetClock, clockUpdate, clockByte, IKBD_Cmd_ReadClock,
    acia_ikbd_rx, param, he, hl, hb, ho,
    m1, m2, m3, m4, m5, m6, n1, n2, n3, n4, n5, n6, v1, v2, v3, v4, v5, v6, hfc]

/-- Witness for C5 from the boot state with payload
25 12 31 23 59 09 (BCD). -/
theorem c5_clock_roundtrip_witness :
    (feedBytes [0x1B, 0x25, 0x12, 0x31, 0x23, 0x59, 0x09, 0x1C] bootEngine).out
      = [0xFC, 0x25, 0x12, 0x31, 0x23, 0x59, 0x09] :=
  c5_clock_roundtrip bootEngine 0x25 0x12 0x31 0x23 0x59 0x09
    (by decide) (by decide) (by decide) (by decide) (by decide) (by decide)
    (by decide) (by decide) (by decide) (by decide) (by decide) (by decide)
    (by decide) (by decide) (by decide) (by decide)

/-- C7: in relative mouse mode with both thresholds 1, default Y axis,
no button/joystick/wheel activity, and the reset countdown expired, a
single tick with accumulated delta dx = 5, dy = 0 emits exactly the
3-byte packet 0xF8, 5, 0. -/
theorem c7_relative_packet (e : Engine)
    (h1 : e.ikbd_reset_counter = 0)
    (h2 : e.kp.MouseMode = AUTOMODE_MOUSEREL)
    (h3 : e.kp.JoystickMode = AUTOMODE_JOYSTICK)
    (h4 : e.kp.Mouse.XThreshold = 1) (h5 : e.kp.Mouse.YThreshold = 1)
    (h6 : e.kp.Mouse.YAxis = 1) (h7 : e.kp.Mouse.Action = 0)
    (h8 : e.env.mouseb = 0) (h9 : e.mouseb_old = 0)
    (h10 : e.kbd.bOldLButtonDown = 0) (h11 : e.kbd.bOldRButtonDown = 0)
    (h12 : e.env.mousew = 0)
    (h13 : e.env.mousex = 5) (h14 : e.env.mousey = 0)
    (h15 : e.env.joyb0 = 0) (h16 : e.env.joyb1 = 0)
    (h17 : e.joypad0.state = 0) (h18 : e.joypad1.state = 0)
    (h19 : e.kp.Joy.PrevJoyData0 = 0) (h20 : e.kp.Joy.PrevJoyData1 = 0)
    (h21 : e.custom.IKBD_ExeMode = false) (h22 : e.out = []) :
    (IKBD_SendAutoKeyboardCommands e).out = [0xF8, 5, 0] := by
  simp [IKBD_SendAutoKeyboardCommands, IKBD_AutoSendTail, IKBD_AutoSendPackets,
    IKBD_AutoSendWheel, IKBD_AutoSendMouseButtons, IKBD_AutoSendCustomRead,
    IKBD_GetJoystickData, joyScanLoop,
    IKBD_DuplicateMouseFireButtons, IKBD_SendOnMouseAction, IKBD_UpdateInternalMousePosition,
    IKBD_SendAutoJoysticks, IKBD_SendRelMousePacket, sendRelLoop, toI8, toU32i,
    acia_ikbd_rx_i, acia_ikbd_rx, IKBD_ButtonsEqual, IKBD_ButtonBool, clearBits,
    wheelUpLoop, wheelDownLoop, sendButtonKeys, MOD32,
    AUTOMODE_OFF, AUTOMODE_MOUSEREL, AUTOMODE_MOUSEABS, AUTOMODE_MOUSECURSOR,
    AUTOMODE_JOYSTICK, AUTOMODE_JOYSTICK_MONITORING, BUTTON_MOUSE,
    h1, h2, h3, h4, h5, h6, h7, h8, h9, h10, h11, h12, h13, h14, h15, h16,
    h17, h18, h19, h20, h21, h22]

/-- Witness for C7: the post-countdown state with pending delta dx=5. -/
theorem c7_relative_packet_witness :
    (IKBD_SendAutoKeyboardCommands
      { readyEngine with env := { readyEngine.env with mousex := 5 }, out := [] }).out
      = [0xF8, 5, 0] :=
  c7_relative_packet _ (by decide) (by decide) (by decide) (by decide) (by decide)
    (by decide) (by decide) (by decide) (by decide) (by decide) (by decide)
    (by decide) (by decide) (by decide) (by decide) (by decide) (by decide)
    (by decide) (by decide) (by decide) (by decide) (by decide)

/-- C10: the enable-joystick-auto-reporting command 0x14, outside the
critical window or with the mouse neither enabled nor disabled during
it, does not leave the pointer mode unchanged: it sets pointer mode to
Off (and joystick mode to Auto), and it zeroes both previously-sent
joystick bitmasks before its immediate sample-and-send — exhibited here
by a held lane-1 fire bit equal to the previously sent mask, which is
nevertheless re-sent as the packet 0xFF 0x80. -/
theorem c10_joystick_auto_forces_mouse_off (e : Engine)
    (hcase : e.bDuringResetCriticalTime = false ∨
             (e.bMouseEnabledDuringReset = false ∧ e.bMouseDisabled = false))
    (he : e.custom.IKBD_ExeMode = false)
    (hl : e.custom.MemoryLoadNbBytesLeft = 0)
    (hb : e.kbd.InputBuffer = []) (ho : e.out = [])
    (hj0 : e.env.joyb0 = 0) (hs0 : e.joypad0.state = 0)
    (hj1 : e.env.joyb1 = 1) (hs1 : e.joypad1.state = 1)
    (hm1 : e.joypad1.map.getD 16 0 = 0x80) :
    (IKBD_Process_RDR 0x14 e).kp.MouseMode = AUTOMODE_OFF ∧
    (IKBD_Process_RDR 0x14 e).kp.JoystickMode = AUTOMODE_JOYSTICK ∧
    (IKBD_Process_RDR 0x14 e).kp.Joy.PrevJoyData0 = 0 ∧
    (IKBD_Process_RDR 0x14 e).kp.Joy.PrevJoyData1 = 0x80 ∧
    (IKBD_Process_RDR 0x14 e).out = [0xFF, 0x80] := by
  have hjsl : ∀ (m : List Nat) (ee : Engine), m.getD 16 0 = 0x80 →
      joyScanLoop 32 0 0 1 m 0 ee = (0x80, ee) := by
    intro m ee hm
    simp [joyScanLoop]
    simpa [List.getD] using hm
  have hjsl0 : ∀ (m : List Nat) (ee : Engine), joyScanLoop 32 0 0 0 m 0 ee = (0, ee) := by
    intro m ee
    simp [joyScanLoop]
  simp only [IKBD_Process_RDR, IKBD_RunKeyboardCommand, KeyboardCommands, List.find?,
    IKBD_Cmd_ReturnJoystickAuto, IKBD_GetJoystickData,
    IKBD_SendAutoJoysticks, acia_ikbd_rx, MOD32,
    AUTOMODE_OFF, AUTOMODE_MOUSEREL, AUTOMODE_MOUSEABS, AUTOMODE_MOUSECURSOR,
    AUTOMODE_JOYSTICK, AUTOMODE_JOYSTICK_MONITORING,
    he, hl, hb, ho, hj0, hs0, hj1, hs1]
  rcases hcase with hw | ⟨hme, hmd⟩
  · simp [IKBD_Cmd_ReturnJoystickAuto, IKBD_GetJoystickData, IKBD_SendAutoJoysticks,
      acia_ikbd_rx, MOD32, AUTOMODE_OFF, AUTOMODE_MOUSEREL, AUTOMODE_JOYSTICK,
      AUTOMODE_JOYSTICK_MONITORING, hjsl _ _ hm1, hjsl0, hw, hj0, hj1, hs0, hs1]
  · simp [IKBD_Cmd_ReturnJoystickAuto, IKBD_GetJoystickData, IKBD_SendAutoJoysticks,
      acia_ikbd_rx, MOD32, AUTOMODE_OFF, AUTOMODE_MOUSEREL, AUTOMODE_JOYSTICK,
      AUTOMODE_JOYSTICK_MONITORING, hjsl _ _ hm1, hjsl0, hme, hmd, hj0, hj1, hs0, hs1]

/-- Witness for C10: post-countdown state with lane-1 fire held. -/
theorem c10_joystick_auto_forces_mouse_off_witness :
    (IKBD_Process_RDR 0x14 c10WitnessState).kp.MouseMode = AUTOMODE_OFF ∧
    (IKBD_Process_RDR 0x14 c10WitnessState).kp.JoystickMode = AUTOMODE_JOYSTICK ∧
    (IKBD_Process_RDR 0x14 c10WitnessState).kp.Joy.PrevJoyData0 = 0 ∧
    (IKBD_Process_RDR 0x14 c10WitnessState).kp.Joy.PrevJoyData1 = 0x80 ∧
    (IKBD_Process_RDR 0x14 c10WitnessState).out = [0xFF, 0x80] :=
  c10_joystick_auto_forces_mouse_off c10WitnessState (Or.inl (by decide)) (by decide)
    (by decide) (by decide) (by decide) (by decide) (by decide) (by decide)
    (by decide) (by decide)

end V4SA
